import Mathlib

/-!
Verification of `src/utils/uv_pin.py` (`make_uv_pin`).

The function drives Maya's dependency graph through `maya.cmds`.  We embed the
relevant fragment of that host API shallowly: a scene is a list of named nodes
(each with a type, an optional parent, a shape flag, and an attribute map)
together with a list of directed plug-to-plug connections.  Every `cmds` call
used by `make_uv_pin` becomes a pure function on this scene state.

Error model, following the source and its host semantics:
`cmds.error` aborts the operation (a scene-state error, `Err.sceneError`);
the `raise RuntimeError` for a bad axis string is a catchable argument error
(`Err.argError`).  `make_uv_pin` therefore returns an `Except Err String`
paired with the scene at the moment the run stopped.
-/

namespace UvPin

/-- Attribute values: enum/bool integers, `float2` pairs (UV coordinates,
modelled over `Rat` since the code only stores and compares them), and
3-vectors (translation / rotation written by `cmds.xform`). -/
inductive AttrVal where
  | int : Int → AttrVal
  | float2 : Rat → Rat → AttrVal
  | vec3 : Rat → Rat → Rat → AttrVal
deriving DecidableEq, Repr

/-- Python truthiness of an attribute value, as used on `.intermediateObject`. -/
def AttrVal.truthy : AttrVal → Bool
  | .int n => n != 0
  | .float2 a b => !(a == 0 && b == 0)
  | .vec3 a b c => !(a == 0 && b == 0 && c == 0)

/-- A plug `node.attr`, the pair behind the f-string `f"{node}{attr}"`;
the attribute part keeps its leading dot (e.g. `".inMesh"`). -/
abbrev Plug := String × String

/-- A scene-graph node: name, node type (`"mesh"`, `"nurbsSurface"`,
`"transform"`, `"uvPin"`, ...), optional parent, whether it is a shape,
and its attribute map. -/
structure Node where
  name : String
  typ : String
  parent : Option String
  isShape : Bool
  attrs : List (String × AttrVal)
deriving DecidableEq, Repr

/-- The Maya scene: the node list and the plug-to-plug connection list
(each connection is `(source plug, destination plug)`). -/
structure Scene where
  nodes : List Node
  conns : List (Plug × Plug)
deriving DecidableEq, Repr

/-- Look a node up by name (first match). -/
def Scene.findNode (sc : Scene) (n : String) : Option Node :=
  sc.nodes.find? (fun nd => nd.name == n)

/-- `cmds.listRelatives(n, children=True, shapes=True)`: names of the shape
children of `n`, in scene order. -/
def Scene.listRelativesShapes (sc : Scene) (n : String) : List String :=
  (sc.nodes.filter (fun nd => nd.parent == some n && nd.isShape)).map Node.name

/-- Value of an attribute stored on a node. -/
def Node.attrVal (nd : Node) (a : String) : Option AttrVal :=
  (nd.attrs.find? (fun p => p.1 == a)).map Prod.snd

/-- `cmds.getAttr` of a plug. -/
def Scene.getAttrVal (sc : Scene) (p : Plug) : Option AttrVal :=
  (sc.findNode p.1).bind (fun nd => nd.attrVal p.2)

/-- Python truthiness of `cmds.getAttr(plug)` (absent plugs count as falsy;
the code only applies this to the always-present `.intermediateObject`). -/
def Scene.getAttrTruthy (sc : Scene) (p : Plug) : Bool :=
  match sc.getAttrVal p with
  | some v => v.truthy
  | none => false

/-- `cmds.objectType`. -/
def Scene.objectType (sc : Scene) (n : String) : String :=
  match sc.findNode n with
  | some nd => nd.typ
  | none => ""

/-- Store an attribute value on a node. -/
def Node.setAttrVal (nd : Node) (a : String) (v : AttrVal) : Node :=
  { nd with attrs := (a, v) :: nd.attrs.filter (fun p => p.1 != a) }

/-- `cmds.setAttr` on a plug (no-op when no node carries the name, which the
host would reject; the code only sets attributes on existing nodes). -/
def Scene.setAttr (sc : Scene) (p : Plug) (v : AttrVal) : Scene :=
  { sc with nodes := sc.nodes.map (fun nd =>
      if nd.name == p.1 then nd.setAttrVal p.2 v else nd) }

/-- `cmds.xform(n, translation=[tx,ty,tz], rotation=[rx,ry,rz])`. -/
def Scene.xform (sc : Scene) (n : String) (tx ty tz rx ry rz : Rat) : Scene :=
  (sc.setAttr (n, ".translate") (.vec3 tx ty tz)).setAttr (n, ".rotate") (.vec3 rx ry rz)

/-- `cmds.connectAttr(src, dst, force=force)`: with `force` the existing
connections into `dst` are replaced, otherwise the connection is added. -/
def Scene.connectAttr (sc : Scene) (src dst : Plug) (force : Bool) : Scene :=
  { sc with conns :=
      (src, dst) :: (if force then sc.conns.filter (fun c => c.2 != dst) else sc.conns) }

/-- `cmds.createNode(t, name=n)` (the host would uniquify a clashing name;
theorems that read the new node back assume the requested name is free). -/
def Scene.createNode (sc : Scene) (t : String) (n : String) : Scene :=
  { sc with nodes := sc.nodes ++ [{ name := n, typ := t, parent := none, isShape := false, attrs := [] }] }

/-- `cmds.parent(child, p, shape=True, relative=True)`. -/
def Scene.reparent (sc : Scene) (child newParent : String) : Scene :=
  { sc with nodes := sc.nodes.map (fun nd =>
      if nd.name == child then { nd with parent := some newParent } else nd) }

/-- `cmds.delete(n)`: drop the node and every connection touching it. -/
def Scene.deleteNode (sc : Scene) (n : String) : Scene :=
  { nodes := sc.nodes.filter (fun nd => nd.name != n),
    conns := sc.conns.filter (fun c => c.1.1 != n && c.2.1 != n) }

/-- Rewrite one plug under a node rename. -/
def renamePlug (old new : String) (p : Plug) : Plug :=
  if p.1 == old then (new, p.2) else p

/-- `cmds.rename(old, new)`: rename the node and rewrite parent references
and connection endpoints. -/
def Scene.rename (sc : Scene) (old new : String) : Scene :=
  { nodes := sc.nodes.map (fun nd =>
      { nd with
        name := if nd.name == old then new else nd.name,
        parent := nd.parent.map (fun q => if q == old then new else q) }),
    conns := sc.conns.map (fun c => (renamePlug old new c.1, renamePlug old new c.2)) }

/-- `cmds.listConnections(p, plugs=True, connections=True, destination=True)`
on an input plug: the flat list of `(queried plug, connected source plug)`
pairs, one pair per incoming connection. -/
def Scene.listConnectionsDst (sc : Scene) (p : Plug) : List Plug :=
  (sc.conns.filter (fun c => c.2 == p)).foldr (fun c acc => p :: c.1 :: acc) []

/-- The two error kinds of the procedure: `cmds.error` (host fatal, scene
state) and `raise RuntimeError` (catchable argument error). -/
inductive Err where
  | sceneError : String → Err
  | argError : String → Err
deriving DecidableEq, Repr

/-- Python truthiness of an optional string argument (`if normal_axis:`):
`None` and the empty string are falsy. -/
def strTruthy : Option String → Bool
  | none => false
  | some s => s != ""

/-- Name of the transform created transiently by `cmds.duplicate`.  The host
guarantees fresh names; `Scene.wf` keeps these names out of input scenes. -/
def dupTransformName : String := "__dupTransform"

/-- Name of the duplicated shape before it is renamed. -/
def dupShapeName : String := "__dupShape"

/-- The transient transform node made by `cmds.duplicate`. -/
def dupTNode : Node :=
  { name := dupTransformName, typ := "transform", parent := none, isShape := false, attrs := [] }

/-- The copy of the duplicated shape, parented under the transient transform. -/
def dupSNode (nd : Node) : Node :=
  { nd with name := dupShapeName, parent := some dupTransformName }

/-- `cmds.duplicate(s)[0]` for a shape `s`: a fresh transform holding a copy
of the shape; returns the transform's name. -/
def Scene.duplicateShape (sc : Scene) (s : String) : String × Scene :=
  match sc.findNode s with
  | none =>
      (dupTransformName, { sc with nodes := sc.nodes ++ [dupTNode] })
  | some nd =>
      (dupTransformName, { sc with nodes := sc.nodes ++ [dupTNode, dupSNode nd] })

/-- Error message of the `raise RuntimeError` branches. -/
def axisErrMsg (a : String) : String :=
  a ++ " isn't a valid axis, it should be x y z -x -y -z"

/-- Lines 77-93 of the source: resolve and set `.normalAxis` on the pin
(default enum 1 when the argument is falsy), or raise for an unmapped symbol. -/
def setNormalAxis (uv_pin : String) (normal_axis : Option String) (sc : UvPin.Scene) :
    Except UvPin.Err Unit × UvPin.Scene :=
  if strTruthy normal_axis then
    let a := normal_axis.getD ""
    if a == "x" then (.ok (), sc.setAttr (uv_pin, ".normalAxis") (.int 0))
    else if a == "y" then (.ok (), sc.setAttr (uv_pin, ".normalAxis") (.int 1))
    else if a == "z" then (.ok (), sc.setAttr (uv_pin, ".normalAxis") (.int 2))
    else if a == "-x" then (.ok (), sc.setAttr (uv_pin, ".normalAxis") (.int 3))
    else if a == "-y" then (.ok (), sc.setAttr (uv_pin, ".normalAxis") (.int 4))
    else if a == "-z" then (.ok (), sc.setAttr (uv_pin, ".normalAxis") (.int 5))
    else (.error (.argError (axisErrMsg a)), sc)
  else (.ok (), sc.setAttr (uv_pin, ".normalAxis") (.int 1))

/-- Lines 95-111 of the source: resolve and set `.tangentAxis` on the pin
(default enum 0 when the argument is falsy), or raise for an unmapped symbol. -/
def setTangentAxis (uv_pin : String) (tangent_axis : Option String) (sc : UvPin.Scene) :
    Except UvPin.Err Unit × UvPin.Scene :=
  if strTruthy tangent_axis then
    let a := tangent_axis.getD ""
    if a == "x" then (.ok (), sc.setAttr (uv_pin, ".tangentAxis") (.int 0))
    else if a == "y" then (.ok (), sc.setAttr (uv_pin, ".tangentAxis") (.int 1))
    else if a == "z" then (.ok (), sc.setAttr (uv_pin, ".tangentAxis") (.int 2))
    else if a == "-x" then (.ok (), sc.setAttr (uv_pin, ".tangentAxis") (.int 3))
    else if a == "-y" then (.ok (), sc.setAttr (uv_pin, ".tangentAxis") (.int 4))
    else if a == "-z" then (.ok (), sc.setAttr (uv_pin, ".tangentAxis") (.int 5))
    else (.error (.argError (axisErrMsg a)), sc)
  else (.ok (), sc.setAttr (uv_pin, ".tangentAxis") (.int 0))

/-- Lines 72-125 of the source: create the `uvPin` node, wire its geometry
inputs, zero the pinned object's transform, resolve the axes, set the
coordinate, connect the output matrix and apply the normalize / space flags. -/
def pinPhase (object_to_pin : String) (u v : Rat) (local_space normalize : Bool)
    (normal_axis tangent_axis : Option String)
    (primary_shape shape_origin attr_world attr_output : String) (sc : UvPin.Scene) :
    Except UvPin.Err String × UvPin.Scene :=
  let uv_pin := object_to_pin ++ "_uvPin"
  let sc1 := sc.createNode "uvPin" uv_pin
  let sc2 := sc1.connectAttr (primary_shape, attr_world) (uv_pin, ".deformedGeometry") false
  let sc3 := sc2.connectAttr (shape_origin, attr_output) (uv_pin, ".originalGeometry") false
  let sc4 := sc3.xform object_to_pin 0 0 0 0 0 0
  match setNormalAxis uv_pin normal_axis sc4 with
  | (.error e, sc5) => (.error e, sc5)
  | (.ok _, sc5) =>
    match setTangentAxis uv_pin tangent_axis sc5 with
    | (.error e, sc6) => (.error e, sc6)
    | (.ok _, sc6) =>
      let sc7 := sc6.setAttr (uv_pin, ".normalizedIsoParms") (.int 0)
      let sc8 := sc7.setAttr (uv_pin, ".coordinate[0]") (.float2 u v)
      let sc9 := sc8.connectAttr (uv_pin, ".outputMatrix[0]") (object_to_pin, ".offsetParentMatrix") false
      let sc10 := if normalize then sc9.setAttr (uv_pin, ".normalizedIsoParms") (.int 1) else sc9
      let sc11 := if local_space then sc10.setAttr (uv_pin, ".relativeSpaceMode") (.int 1)
                  else sc10.setAttr (object_to_pin, ".inheritsTransform") (.int 0)
      (.ok uv_pin, sc11)

/-- Lines 54-69 of the source: synthesize the intermediate ("Orig") shape by
duplicating the primary shape, reparenting the copy under the surface,
deleting the transient transform, renaming the copy, rerouting a pre-existing
input connection, force-connecting the copy's world output into the primary
shape's input, and flagging the copy as intermediate. -/
def synthOrigin (surface primary_shape attr_input attr_world : String) (sc : UvPin.Scene) :
    Except UvPin.Err String × UvPin.Scene :=
  let dup := sc.duplicateShape primary_shape
  let duplicated := dup.1
  let sc1 := dup.2
  match sc1.listRelativesShapes duplicated with
  | [] => (.error (.sceneError "Could not create intermediate shape."), sc1)
  | so0 :: _ =>
    let sc2 := sc1.reparent so0 surface
    let sc3 := sc2.deleteNode duplicated
    let new_name := primary_shape ++ "Orig"
    let sc4 := sc3.rename so0 new_name
    let in_conn := sc4.listConnectionsDst (primary_shape, attr_input)
    let sc5 := if in_conn.isEmpty then sc4
               else sc4.connectAttr (in_conn.getD 1 ("", "")) (new_name, attr_input) false
    let sc6 := sc5.connectAttr (new_name, attr_world) (primary_shape, attr_input) true
    (.ok new_name, sc6.setAttr (new_name, ".intermediateObject") (.int 1))

/-- Line 37 of the source: the first non-intermediate shape child, falling
back to the first shape child. -/
def primaryShapeOf (sc : UvPin.Scene) (surface : String) : String :=
  let shapes := sc.listRelativesShapes surface
  (shapes.find? (fun s => ! sc.getAttrTruthy (s, ".intermediateObject"))).getD (shapes.headD "")

/-- Line 38 of the source: the first intermediate shape child, if any. -/
def shapeOriginOf (sc : UvPin.Scene) (surface : String) : Option String :=
  (sc.listRelativesShapes surface).find? (fun s => sc.getAttrTruthy (s, ".intermediateObject"))

/-- Lines 41-51 of the source: the `(attr_input, attr_world, attr_output)`
attribute names for a supported surface type, `none` for an unsupported one. -/
def attrNamesFor (surface_type : String) : Option (String × String × String) :=
  if surface_type == "mesh" then some (".inMesh", ".worldMesh[0]", ".outMesh")
  else if surface_type == "nurbsSurface" then some (".create", ".worldSpace[0]", ".local")
  else none

/-- The embedding of `make_uv_pin` (src/utils/uv_pin.py, lines 4-125).
Note that `reset_transforms` is accepted but never consulted by the body,
exactly as in the source. -/
def make_uv_pin (object_to_pin surface : String) (u v : Rat)
    (local_space normalize : Bool) (normal_axis tangent_axis : Option String)
    (reset_transforms : Bool) (sc : UvPin.Scene) : Except UvPin.Err String × UvPin.Scene :=
  let _ := reset_transforms
  let shapes := sc.listRelativesShapes surface
  if shapes.isEmpty then
    (.error (.sceneError ("No shape nodes found on surface: " ++ surface)), sc)
  else
    let primary_shape := primaryShapeOf sc surface
    let shape_origin := shapeOriginOf sc surface
    let surface_type := sc.objectType primary_shape
    match attrNamesFor surface_type with
    | none => (.error (.sceneError ("Unsupported surface type: " ++ surface_type)), sc)
    | some (attr_input, attr_world, attr_output) =>
      match shape_origin with
      | some so =>
          pinPhase object_to_pin u v local_space normalize normal_axis tangent_axis
            primary_shape so attr_world attr_output sc
      | none =>
          match synthOrigin surface primary_shape attr_input attr_world sc with
          | (.error e, sc') => (.error e, sc')
          | (.ok so, sc') =>
              pinPhase object_to_pin u v local_space normalize normal_axis tangent_axis
                primary_shape so attr_world attr_output sc'

/-- The axis lookup table of the spec: `x y z -x -y -z` to `0..5`, `none`
for an unmapped symbol.  The chained conditionals of `setNormalAxis` /
`setTangentAxis` are proved to agree with it. -/
def axisEnum (a : String) : Option Int :=
  if a == "x" then some 0
  else if a == "y" then some 1
  else if a == "z" then some 2
  else if a == "-x" then some 3
  else if a == "-y" then some 4
  else if a == "-z" then some 5
  else none

/-- The enum value `setNormalAxis` will store: the table value for a truthy
argument, the default 1 (+Y) otherwise; `none` means it raises. -/
def normalEnumOf (normal_axis : Option String) : Option Int :=
  if strTruthy normal_axis then axisEnum (normal_axis.getD "") else some 1

/-- The enum value `setTangentAxis` will store: the table value for a truthy
argument, the default 0 (+X) otherwise; `none` means it raises. -/
def tangentEnumOf (tangent_axis : Option String) : Option Int :=
  if strTruthy tangent_axis then axisEnum (tangent_axis.getD "") else some 0

/-- An axis argument that is truthy but outside the six mapped symbols. -/
def invalidAxisArg (a : Option String) : Bool :=
  strTruthy a && (axisEnum (a.getD "")).isNone

/-- The run ended in `cmds.error` (host fatal, scene-state error). -/
def resIsSceneErr (r : Except Err String × Scene) : Bool :=
  match r.1 with
  | .error (.sceneError _) => true
  | _ => false

/-- The run ended in a raised, catchable argument error. -/
def resIsArgErr (r : Except Err String × Scene) : Bool :=
  match r.1 with
  | .error (.argError _) => true
  | _ => false

/-- The run succeeded. -/
def resIsOk (r : Except Err String × Scene) : Bool :=
  match r.1 with
  | .ok _ => true
  | _ => false

/-- A node flagged as intermediate (truthy `.intermediateObject`). -/
def Node.isIntermediate (nd : Node) : Bool :=
  match nd.attrVal ".intermediateObject" with
  | some w => w.truthy
  | none => false

/-- Names of the intermediate shape children of `surface`, in scene order. -/
def intermediateShapesOf (sc : Scene) (surface : String) : List String :=
  (sc.nodes.filter (fun nd =>
    nd.parent == some surface && nd.isShape && nd.isIntermediate)).map Node.name

/-- The identity-relevant skeleton of a node: name, type, parent, shape flag
(everything except its attribute map). -/
def Node.skel (nd : Node) : String × String × Option String × Bool :=
  (nd.name, nd.typ, nd.parent, nd.isShape)

/-- Well-formed scene: node names are distinct, and the reserved transient
names of `cmds.duplicate` are unused by nodes, parent references and
connection endpoints (the host would never hand them out). -/
def Scene.wf (sc : Scene) : Prop :=
  (sc.nodes.map Node.name).Nodup ∧
  (∀ nd ∈ sc.nodes, nd.name ≠ dupTransformName ∧ nd.name ≠ dupShapeName ∧
     nd.parent ≠ some dupTransformName ∧ nd.parent ≠ some dupShapeName) ∧
  (∀ c ∈ sc.conns, c.1.1 ≠ dupTransformName ∧ c.1.1 ≠ dupShapeName ∧
     c.2.1 ≠ dupTransformName ∧ c.2.1 ≠ dupShapeName)

/-- A name unused by nodes and connection endpoints of a scene. -/
def Scene.freshFor (sc : Scene) (n : String) : Prop :=
  (∀ nd ∈ sc.nodes, nd.name ≠ n) ∧ (∀ c ∈ sc.conns, c.1.1 ≠ n ∧ c.2.1 ≠ n)

instance (sc : Scene) : Decidable sc.wf := by
  unfold Scene.wf
  infer_instance

instance (sc : Scene) (n : String) : Decidable (sc.freshFor n) := by
  unfold Scene.freshFor
  infer_instance

/-- Sample pinned object. -/
def objNode : Node :=
  { name := "cube1", typ := "transform", parent := none, isShape := false, attrs := [] }

/-- Sample surface transform. -/
def srfNode : Node :=
  { name := "plane1", typ := "transform", parent := none, isShape := false, attrs := [] }

/-- Sample deforming mesh shape under the surface. -/
def shpNode : Node :=
  { name := "planeShape1", typ := "mesh", parent := some "plane1", isShape := true,
    attrs := [(".intermediateObject", .int 0)] }

/-- Sample pre-existing intermediate shape under the surface. -/
def origNode : Node :=
  { name := "planeShape1Orig", typ := "mesh", parent := some "plane1", isShape := true,
    attrs := [(".intermediateObject", .int 1)] }

/-- A scene with a mesh surface and no intermediate shape. -/
def sampleScene : Scene :=
  { nodes := [objNode, srfNode, shpNode], conns := [] }

/-- A scene with a mesh surface that already has an intermediate shape. -/
def sampleScene2 : Scene :=
  { nodes := [objNode, srfNode, shpNode, origNode], conns := [] }

/-- A scene whose only shape child of the surface is an intermediate one. -/
def sampleScene3 : Scene :=
  { nodes := [objNode, srfNode, origNode], conns := [] }

/-- A scene whose surface shape has an unsupported type. -/
def sampleSceneBadType : Scene :=
  { nodes := [objNode, srfNode,
      { name := "crvShape1", typ := "nurbsCurve", parent := some "plane1", isShape := true,
        attrs := [(".intermediateObject", .int 0)] }], conns := [] }

/-- A scene where the mesh shape already has an upstream input connection. -/
def sampleSceneConn : Scene :=
  { nodes := [objNode, srfNode, shpNode,
      { name := "deformer1", typ := "skinCluster", parent := none, isShape := false, attrs := [] }],
    conns := [((("deformer1", ".outputGeometry[0]") : Plug), (("planeShape1", ".inMesh") : Plug))] }

/-! String disequalities between the names the procedure manufactures. -/

theorem append_ne_append_of_last {t u : String} (ht : t.data ≠ []) (hu : u.data ≠ [])
    (h : t.data.getLast? ≠ u.data.getLast?) (a b : String) : a ++ t ≠ b ++ u := by
  intro he
  apply h
  have hd : a.data ++ t.data = b.data ++ u.data := by
    rw [← String.data_append, ← String.data_append, he]
  calc t.data.getLast? = (a.data ++ t.data).getLast? :=
        (List.getLast?_append_of_ne_nil _ ht).symm
    _ = (b.data ++ u.data).getLast? := by rw [hd]
    _ = u.data.getLast? := List.getLast?_append_of_ne_nil _ hu

theorem append_ne_of_last {t : String} (u : String) (ht : t.data ≠ [])
    (h : t.data.getLast? ≠ u.data.getLast?) (a : String) : a ++ t ≠ u := by
  intro he
  apply h
  have hd : a.data ++ t.data = u.data := by rw [← String.data_append, he]
  calc t.data.getLast? = (a.data ++ t.data).getLast? :=
        (List.getLast?_append_of_ne_nil _ ht).symm
    _ = u.data.getLast? := by rw [hd]

theorem append_ne_self {t : String} (ht : t.data ≠ []) (a : String) : a ++ t ≠ a := by
  intro he
  have hd : a.data ++ t.data = a.data := by rw [← String.data_append, he]
  have hl := congrArg List.length hd
  simp only [List.length_append] at hl
  exact ht (List.length_eq_zero.mp (by omega))

theorem orig_ne_pin (a b : String) : a ++ "Orig" ≠ b ++ "_uvPin" :=
  append_ne_append_of_last (by decide) (by decide) (by decide) a b

theorem pin_ne_obj (o : String) : o ++ "_uvPin" ≠ o :=
  append_ne_self (by decide) o

theorem pin_ne_dupT (b : String) : b ++ "_uvPin" ≠ dupTransformName :=
  append_ne_of_last dupTransformName (by decide) (by decide) b

theorem pin_ne_dupS (b : String) : b ++ "_uvPin" ≠ dupShapeName :=
  append_ne_of_last dupShapeName (by decide) (by decide) b

theorem orig_ne_dupT (a : String) : a ++ "Orig" ≠ dupTransformName :=
  append_ne_of_last dupTransformName (by decide) (by decide) a

theorem orig_ne_dupS (a : String) : a ++ "Orig" ≠ dupShapeName :=
  append_ne_of_last dupShapeName (by decide) (by decide) a

/-! Projection lemmas for the scene primitives. -/

theorem conns_setAttr (sc : Scene) (p : Plug) (v : AttrVal) :
    (sc.setAttr p v).conns = sc.conns := rfl

theorem conns_createNode (sc : Scene) (t n : String) :
    (sc.createNode t n).conns = sc.conns := rfl

theorem conns_xform (sc : Scene) (n : String) (tx ty tz rx ry rz : Rat) :
    (sc.xform n tx ty tz rx ry rz).conns = sc.conns := rfl

theorem nodes_connectAttr (sc : Scene) (a b : Plug) (f : Bool) :
    (sc.connectAttr a b f).nodes = sc.nodes := rfl

theorem conns_connectAttr_false (sc : Scene) (a b : Plug) :
    (sc.connectAttr a b false).conns = (a, b) :: sc.conns := rfl

theorem conns_connectAttr_true (sc : Scene) (a b : Plug) :
    (sc.connectAttr a b true).conns = (a, b) :: sc.conns.filter (fun c => c.2 != b) := rfl

theorem name_setAttrVal (nd : Node) (a : String) (v : AttrVal) :
    (nd.setAttrVal a v).name = nd.name := rfl

theorem skel_setAttrVal (nd : Node) (a : String) (v : AttrVal) :
    (nd.setAttrVal a v).skel = nd.skel := rfl

theorem skel_map_setAttr (sc : Scene) (p : Plug) (v : AttrVal) :
    (sc.setAttr p v).nodes.map Node.skel = sc.nodes.map Node.skel := by
  unfold Scene.setAttr
  simp only [List.map_map]
  apply List.map_congr_left
  intro nd _
  by_cases h : nd.name = p.1
  · simp [h, skel_setAttrVal]
  · simp [h]

theorem skel_map_xform (sc : Scene) (n : String) (tx ty tz rx ry rz : Rat) :
    (sc.xform n tx ty tz rx ry rz).nodes.map Node.skel = sc.nodes.map Node.skel := by
  unfold Scene.xform
  rw [skel_map_setAttr, skel_map_setAttr]

theorem skel_map_createNode (sc : Scene) (t n : String) :
    (sc.createNode t n).nodes.map Node.skel
      = sc.nodes.map Node.skel ++ [(n, t, none, false)] := by
  unfold Scene.createNode
  simp [Node.skel]

theorem names_eq_of_skel_eq {l₁ l₂ : List Node}
    (h : l₁.map Node.skel = l₂.map Node.skel) : l₁.map Node.name = l₂.map Node.name := by
  have key : ∀ l : List Node, (l.map Node.skel).map Prod.fst = l.map Node.name := by
    intro l
    rw [List.map_map]
    apply List.map_congr_left
    intro a _
    rfl
  rw [← key l₁, ← key l₂, h]

/-! Attribute reads across the scene primitives. -/

theorem find?_name_map (l : List Node) (f : Node → Node)
    (hf : ∀ nd, (f nd).name = nd.name) (n : String) :
    (l.map f).find? (fun nd => nd.name == n)
      = (l.find? (fun nd => nd.name == n)).map f := by
  induction l with
  | nil => rfl
  | cons hd tl ih =>
    rw [List.map_cons, List.find?_cons, List.find?_cons, hf hd]
    cases hb : (hd.name == n) with
    | true => rfl
    | false => simpa using ih

theorem findNode_setAttr (sc : Scene) (q : Plug) (v : AttrVal) (n : String) :
    (sc.setAttr q v).findNode n
      = (sc.findNode n).map (fun nd => if nd.name == q.1 then nd.setAttrVal q.2 v else nd) := by
  unfold Scene.setAttr Scene.findNode
  apply find?_name_map
  intro nd
  by_cases h : nd.name == q.1 <;> simp [h, name_setAttrVal]

theorem find?_key_filter_ne (l : List (String × AttrVal)) (a b : String) (h : b ≠ a) :
    (l.filter (fun p => p.1 != a)).find? (fun p => p.1 == b)
      = l.find? (fun p => p.1 == b) := by
  induction l with
  | nil => rfl
  | cons hd tl ih =>
    have hab : a ≠ b := fun hh => h hh.symm
    by_cases hb : hd.1 = b
    · have hne : hd.1 ≠ a := by rw [hb]; exact h
      simp [List.filter_cons, List.find?_cons, hb, hne, h, bne_iff_ne]
    · by_cases ha : hd.1 = a
      · simp [List.filter_cons, List.find?_cons, hb, ha, ih, hab, bne_iff_ne]
      · simp [List.filter_cons, List.find?_cons, hb, ha, ih, bne_iff_ne]

theorem attrVal_setAttrVal_same (nd : Node) (a : String) (v : AttrVal) :
    (nd.setAttrVal a v).attrVal a = some v := by
  simp [Node.setAttrVal, Node.attrVal, List.find?_cons]

theorem attrVal_setAttrVal_ne (nd : Node) (a b : String) (v : AttrVal) (h : b ≠ a) :
    (nd.setAttrVal a v).attrVal b = nd.attrVal b := by
  simp only [Node.setAttrVal, Node.attrVal]
  rw [List.find?_cons]
  have : (((a, v) : String × AttrVal).1 == b) = false := by
    simp
    exact fun he => h he.symm
  simp only [this]
  rw [find?_key_filter_ne _ _ _ h]

theorem getAttrVal_setAttr_nodeNe (sc : Scene) (q : Plug) (v : AttrVal) (n b : String)
    (h : n ≠ q.1) : (sc.setAttr q v).getAttrVal (n, b) = sc.getAttrVal (n, b) := by
  unfold Scene.getAttrVal
  rw [findNode_setAttr]
  cases hf : sc.findNode n with
  | none => rfl
  | some nd =>
    have hn : nd.name = n := by
      have := List.find?_some hf
      simpa using this
    have hne : ¬ nd.name = q.1 := by rw [hn]; exact h
    simp [hne]

theorem getAttrVal_setAttr_attrNe (sc : Scene) (q : Plug) (v : AttrVal) (n b : String)
    (h : b ≠ q.2) : (sc.setAttr q v).getAttrVal (n, b) = sc.getAttrVal (n, b) := by
  unfold Scene.getAttrVal
  rw [findNode_setAttr]
  cases hf : sc.findNode n with
  | none => rfl
  | some nd =>
    by_cases hq : nd.name = q.1
    · simp [hq, attrVal_setAttrVal_ne _ _ _ _ h]
    · simp [hq]

theorem getAttrVal_setAttr_same (sc : Scene) (q : Plug) (v : AttrVal)
    (h : (sc.findNode q.1).isSome) : (sc.setAttr q v).getAttrVal q = some v := by
  unfold Scene.getAttrVal
  rw [findNode_setAttr]
  cases hf : sc.findNode q.1 with
  | none => rw [hf] at h; simp at h
  | some nd =>
    have hn : nd.name = q.1 := by
      have := List.find?_some hf
      simpa using this
    simp [hn, attrVal_setAttrVal_same]

theorem getAttrVal_connectAttr (sc : Scene) (a b : Plug) (f : Bool) (p : Plug) :
    (sc.connectAttr a b f).getAttrVal p = sc.getAttrVal p := rfl

theorem findNode_connectAttr (sc : Scene) (a b : Plug) (f : Bool) (n : String) :
    (sc.connectAttr a b f).findNode n = sc.findNode n := rfl

theorem findNode_createNode (sc : Scene) (t m n : String) :
    (sc.createNode t m).findNode n
      = (sc.findNode n).or
          (if m = n then some { name := m, typ := t, parent := none, isShape := false, attrs := [] }
           else none) := by
  unfold Scene.createNode Scene.findNode
  rw [List.find?_append]
  congr 1
  by_cases h : m = n <;> simp [List.find?_cons, h]

theorem getAttrVal_createNode_of_found (sc : Scene) (t m : String) (p : Plug)
    (h : (sc.findNode p.1).isSome) :
    (sc.createNode t m).getAttrVal p = sc.getAttrVal p := by
  unfold Scene.getAttrVal
  rw [findNode_createNode]
  cases hf : sc.findNode p.1 with
  | none => rw [hf] at h; simp at h
  | some nd => rfl

theorem getAttrVal_createNode_fresh (sc : Scene) (t m : String) (b : String)
    (h : sc.findNode m = none) :
    (sc.createNode t m).getAttrVal (m, b) = none := by
  unfold Scene.getAttrVal
  rw [findNode_createNode, h]
  simp [Node.attrVal]

theorem isSome_findNode_setAttr (sc : Scene) (q : Plug) (v : AttrVal) (n : String) :
    ((sc.setAttr q v).findNode n).isSome = (sc.findNode n).isSome := by
  rw [findNode_setAttr]
  cases sc.findNode n <;> rfl

theorem isSome_findNode_createNode (sc : Scene) (t m n : String)
    (h : (sc.findNode n).isSome) : ((sc.createNode t m).findNode n).isSome := by
  rw [findNode_createNode]
  cases hf : sc.findNode n with
  | none => rw [hf] at h; simp at h
  | some nd => rfl

theorem isSome_findNode_xform (sc : Scene) (m : String) (tx ty tz rx ry rz : Rat) (n : String) :
    ((sc.xform m tx ty tz rx ry rz).findNode n).isSome = (sc.findNode n).isSome := by
  unfold Scene.xform
  rw [isSome_findNode_setAttr, isSome_findNode_setAttr]

/-! The chained axis conditionals agree with the `axisEnum` lookup table. -/

theorem setNormalAxis_ok (uv_pin : String) (na : Option String) (sc : Scene) (k : Int)
    (h : normalEnumOf na = some k) :
    setNormalAxis uv_pin na sc = (.ok (), sc.setAttr (uv_pin, ".normalAxis") (.int k)) := by
  unfold setNormalAxis
  unfold normalEnumOf axisEnum at h
  by_cases ht : strTruthy na
  · simp only [ht, if_true] at h ⊢
    split_ifs at h ⊢ <;> simp_all
  · simp only [ht, if_false, Bool.false_eq_true] at h ⊢
    simp at h
    rw [← h]

theorem setNormalAxis_err (uv_pin : String) (na : Option String) (sc : Scene)
    (h : normalEnumOf na = none) :
    setNormalAxis uv_pin na sc
      = (.error (.argError (axisErrMsg (na.getD ""))), sc) := by
  unfold setNormalAxis
  unfold normalEnumOf axisEnum at h
  by_cases ht : strTruthy na
  · simp only [ht, if_true] at h ⊢
    split_ifs at h ⊢ <;> simp_all
  · simp [ht] at h

theorem setTangentAxis_ok (uv_pin : String) (ta : Option String) (sc : Scene) (k : Int)
    (h : tangentEnumOf ta = some k) :
    setTangentAxis uv_pin ta sc = (.ok (), sc.setAttr (uv_pin, ".tangentAxis") (.int k)) := by
  unfold setTangentAxis
  unfold tangentEnumOf axisEnum at h
  by_cases ht : strTruthy ta
  · simp only [ht, if_true] at h ⊢
    split_ifs at h ⊢ <;> simp_all
  · simp only [ht, if_false, Bool.false_eq_true] at h ⊢
    simp at h
    rw [← h]

theorem setTangentAxis_err (uv_pin : String) (ta : Option String) (sc : Scene)
    (h : tangentEnumOf ta = none) :
    setTangentAxis uv_pin ta sc
      = (.error (.argError (axisErrMsg (ta.getD ""))), sc) := by
  unfold setTangentAxis
  unfold tangentEnumOf axisEnum at h
  by_cases ht : strTruthy ta
  · simp only [ht, if_true] at h ⊢
    split_ifs at h ⊢ <;> simp_all
  · simp [ht] at h

/-- The scene produced by the pin phase when both axis arguments resolve
(to `kn` and `kt`): the explicit composition of its side effects. -/
def pinScene (object_to_pin : String) (u v : Rat) (local_space normalize : Bool)
    (kn kt : Int) (primary_shape shape_origin attr_world attr_output : String)
    (sc : Scene) : Scene :=
  let uv_pin := object_to_pin ++ "_uvPin"
  let sc1 := sc.createNode "uvPin" uv_pin
  let sc2 := sc1.connectAttr (primary_shape, attr_world) (uv_pin, ".deformedGeometry") false
  let sc3 := sc2.connectAttr (shape_origin, attr_output) (uv_pin, ".originalGeometry") false
  let sc4 := sc3.xform object_to_pin 0 0 0 0 0 0
  let sc5 := sc4.setAttr (uv_pin, ".normalAxis") (.int kn)
  let sc6 := sc5.setAttr (uv_pin, ".tangentAxis") (.int kt)
  let sc7 := sc6.setAttr (uv_pin, ".normalizedIsoParms") (.int 0)
  let sc8 := sc7.setAttr (uv_pin, ".coordinate[0]") (.float2 u v)
  let sc9 := sc8.connectAttr (uv_pin, ".outputMatrix[0]") (object_to_pin, ".offsetParentMatrix") false
  let sc10 := if normalize then sc9.setAttr (uv_pin, ".normalizedIsoParms") (.int 1) else sc9
  if local_space then sc10.setAttr (uv_pin, ".relativeSpaceMode") (.int 1)
  else sc10.setAttr (object_to_pin, ".inheritsTransform") (.int 0)

theorem pinPhase_ok (o : String) (u v : Rat) (ls nz : Bool) (na ta : Option String)
    (pr so aw ao : String) (sc : Scene) (kn kt : Int)
    (hn : normalEnumOf na = some kn) (ht : tangentEnumOf ta = some kt) :
    pinPhase o u v ls nz na ta pr so aw ao sc
      = (.ok (o ++ "_uvPin"), pinScene o u v ls nz kn kt pr so aw ao sc) := by
  unfold pinPhase pinScene
  dsimp only
  rw [setNormalAxis_ok _ _ _ _ hn]
  dsimp only
  rw [setTangentAxis_ok _ _ _ _ ht]

/-- The scene at the moment an axis argument error is raised: the pin node
has been created, its geometry inputs connected, and the pinned object's
transform zeroed. -/
def pinErrScene (o pr so aw ao : String) (sc : Scene) : Scene :=
  (((sc.createNode "uvPin" (o ++ "_uvPin")).connectAttr
      (pr, aw) (o ++ "_uvPin", ".deformedGeometry") false).connectAttr
      (so, ao) (o ++ "_uvPin", ".originalGeometry") false).xform o 0 0 0 0 0 0

/-- The run ending in the normal-axis argument error: the pin node and both
geometry connections already exist in the returned scene. -/
theorem pinPhase_errN (o : String) (u v : Rat) (ls nz : Bool) (na ta : Option String)
    (pr so aw ao : String) (sc : Scene)
    (hn : normalEnumOf na = none) :
    pinPhase o u v ls nz na ta pr so aw ao sc
      = (.error (.argError (axisErrMsg (na.getD ""))), pinErrScene o pr so aw ao sc) := by
  unfold pinPhase pinErrScene
  dsimp only
  rw [setNormalAxis_err _ _ _ hn]

/-- The run ending in the tangent-axis argument error. -/
theorem pinPhase_errT (o : String) (u v : Rat) (ls nz : Bool) (na ta : Option String)
    (pr so aw ao : String) (sc : Scene) (kn : Int)
    (hn : normalEnumOf na = some kn) (ht : tangentEnumOf ta = none) :
    pinPhase o u v ls nz na ta pr so aw ao sc
      = (.error (.argError (axisErrMsg (ta.getD ""))),
         (pinErrScene o pr so aw ao sc).setAttr (o ++ "_uvPin", ".normalAxis") (.int kn)) := by
  unfold pinPhase pinErrScene
  dsimp only
  rw [setNormalAxis_ok _ _ _ _ hn]
  dsimp only
  rw [setTangentAxis_err _ _ _ ht]

/-! Path characterization of `make_uv_pin`. -/

theorem run_noShapes (o s : String) (u v : Rat) (ls nz : Bool) (na ta : Option String)
    (rt : Bool) (sc : Scene) (h : sc.listRelativesShapes s = []) :
    make_uv_pin o s u v ls nz na ta rt sc
      = (.error (.sceneError ("No shape nodes found on surface: " ++ s)), sc) := by
  unfold make_uv_pin
  dsimp only
  rw [h]
  simp

theorem isEmpty_false_of_ne_nil {α : Type} {l : List α} (h : l ≠ []) :
    l.isEmpty = false := by
  cases hc : l with
  | nil => exact absurd hc h
  | cons a t => rfl

theorem run_badType (o s : String) (u v : Rat) (ls nz : Bool) (na ta : Option String)
    (rt : Bool) (sc : Scene) (h1 : sc.listRelativesShapes s ≠ [])
    (h2 : attrNamesFor (sc.objectType (primaryShapeOf sc s)) = none) :
    make_uv_pin o s u v ls nz na ta rt sc
      = (.error (.sceneError ("Unsupported surface type: "
          ++ sc.objectType (primaryShapeOf sc s))), sc) := by
  unfold make_uv_pin
  dsimp only
  rw [isEmpty_false_of_ne_nil h1]
  simp only [Bool.false_eq_true, if_false]
  rw [h2]

theorem run_withOrigin (o s : String) (u v : Rat) (ls nz : Bool) (na ta : Option String)
    (rt : Bool) (sc : Scene) (ai aw ao so : String)
    (h1 : sc.listRelativesShapes s ≠ [])
    (hA : attrNamesFor (sc.objectType (primaryShapeOf sc s)) = some (ai, aw, ao))
    (hO : shapeOriginOf sc s = some so) :
    make_uv_pin o s u v ls nz na ta rt sc
      = pinPhase o u v ls nz na ta (primaryShapeOf sc s) so aw ao sc := by
  unfold make_uv_pin
  dsimp only
  rw [isEmpty_false_of_ne_nil h1]
  simp only [Bool.false_eq_true, if_false]
  rw [hA, hO]

theorem run_synth (o s : String) (u v : Rat) (ls nz : Bool) (na ta : Option String)
    (rt : Bool) (sc : Scene) (ai aw ao : String)
    (h1 : sc.listRelativesShapes s ≠ [])
    (hA : attrNamesFor (sc.objectType (primaryShapeOf sc s)) = some (ai, aw, ao))
    (hO : shapeOriginOf sc s = none) :
    make_uv_pin o s u v ls nz na ta rt sc
      = (match synthOrigin s (primaryShapeOf sc s) ai aw sc with
         | (.error e, sc') => (.error e, sc')
         | (.ok so, sc') => pinPhase o u v ls nz na ta (primaryShapeOf sc s) so aw ao sc') := by
  unfold make_uv_pin
  dsimp only
  rw [isEmpty_false_of_ne_nil h1]
  simp only [Bool.false_eq_true, if_false]
  rw [hA, hO]

/-! Characterization of the intermediate-shape synthesis under `Scene.wf`. -/

/-- The synthesized intermediate shape in its final state (before its
`.intermediateObject` flag is set): the copy of `nd`, renamed with the
`"Orig"` suffix and parented under the surface. -/
def origSNode (pr s : String) (nd : Node) : Node :=
  { nd with name := pr ++ "Orig", parent := some s }

/-- The scene `synthOrigin` produces on success, written as an explicit
function of the input scene. -/
def synthScene (s pr ai aw : String) (nd : Node) (sc : Scene) : Scene :=
  let orig := pr ++ "Orig"
  let base : Scene := { nodes := sc.nodes ++ [origSNode pr s nd], conns := sc.conns }
  let in_conn := base.listConnectionsDst (pr, ai)
  let withRe := if in_conn.isEmpty then base
                else base.connectAttr (in_conn.getD 1 ("", "")) (orig, ai) false
  (withRe.connectAttr (orig, aw) (pr, ai) true).setAttr (orig, ".intermediateObject") (.int 1)

theorem listRel_dupAppend (sc : Scene) (nd : Node) (hwf : sc.wf) (hshape : nd.isShape = true) :
    (Scene.mk (sc.nodes ++ [dupTNode, dupSNode nd]) sc.conns).listRelativesShapes
        dupTransformName = [dupShapeName] := by
  unfold Scene.listRelativesShapes
  dsimp only
  rw [List.filter_append]
  have h0 : sc.nodes.filter (fun x => x.parent == some dupTransformName && x.isShape) = [] := by
    rw [List.filter_eq_nil_iff]
    intro a ha
    have hp := (hwf.2.1 a ha).2.2.1
    simp [hp]
  rw [h0]
  simp [dupTNode, dupSNode, dupTransformName, dupShapeName, hshape]

theorem synthOrigin_eq (s pr ai aw : String) (sc : Scene) (nd : Node)
    (hwf : sc.wf) (hfind : sc.findNode pr = some nd) (hshape : nd.isShape = true)
    (hs : s ≠ dupShapeName) :
    synthOrigin s pr ai aw sc = (.ok (pr ++ "Orig"), synthScene s pr ai aw nd sc) := by
  unfold synthOrigin Scene.duplicateShape
  rw [hfind]
  dsimp only
  rw [listRel_dupAppend sc nd hwf hshape]
  dsimp only
  have h2 : (Scene.mk (sc.nodes ++ [dupTNode, dupSNode nd]) sc.conns).reparent
      dupShapeName s
      = Scene.mk (sc.nodes ++ [dupTNode, { nd with name := dupShapeName, parent := some s }])
          sc.conns := by
    unfold Scene.reparent
    dsimp only
    congr 1
    rw [List.map_append]
    congr 1
    · have hid : ∀ x ∈ sc.nodes,
          (if x.name == dupShapeName then { x with parent := some s } else x) = x := by
        intro x hx
        have hne := (hwf.2.1 x hx).2.1
        simp [hne]
      rw [List.map_congr_left hid, List.map_id']
  rw [h2]
  have h3 : (Scene.mk
        (sc.nodes ++ [dupTNode, { nd with name := dupShapeName, parent := some s }])
        sc.conns).deleteNode dupTransformName
      = Scene.mk (sc.nodes ++ [{ nd with name := dupShapeName, parent := some s }])
          sc.conns := by
    unfold Scene.deleteNode
    congr 1
    · dsimp only
      rw [List.filter_append]
      have hid : sc.nodes.filter (fun x => x.name != dupTransformName) = sc.nodes := by
        rw [List.filter_eq_self]
        intro a ha
        have hne := (hwf.2.1 a ha).1
        simp [hne]
      rw [hid]
      rfl
    · dsimp only
      rw [List.filter_eq_self]
      intro c hc
      have h1 := (hwf.2.2 c hc).1
      have h2 := (hwf.2.2 c hc).2.2.1
      simp [h1, h2]
  rw [h3]
  have h4 : (Scene.mk (sc.nodes ++ [{ nd with name := dupShapeName, parent := some s }])
        sc.conns).rename dupShapeName (pr ++ "Orig")
      = Scene.mk (sc.nodes ++ [origSNode pr s nd]) sc.conns := by
    unfold Scene.rename
    congr 1
    · dsimp only
      rw [List.map_append]
      congr 1
      · have hid : ∀ x ∈ sc.nodes,
            ({ x with
               name := if x.name == dupShapeName then pr ++ "Orig" else x.name,
               parent := x.parent.map
                 (fun q => if q == dupShapeName then pr ++ "Orig" else q) } : Node) = x := by
          intro x hx
          have hn := (hwf.2.1 x hx).2.1
          have hp := (hwf.2.1 x hx).2.2.2
          have hpm : x.parent.map (fun q => if q == dupShapeName then pr ++ "Orig" else q)
              = x.parent := by
            cases hxp : x.parent with
            | none => rfl
            | some q =>
              have hq : q ≠ dupShapeName := by
                intro hq
                exact hp (by rw [hxp, hq])
              simp [hq]
          have hnn : (x.name == dupShapeName) = false := by simp [hn]
          simp only [hnn, Bool.false_eq_true, if_false, hpm]
        rw [List.map_congr_left hid, List.map_id']
      · have hss : (s == dupShapeName) = false := by
          simp
          exact hs
        simp [origSNode, hss, hs]
    · dsimp only
      have hid : ∀ c ∈ sc.conns,
          ((renamePlug dupShapeName (pr ++ "Orig") c.1,
            renamePlug dupShapeName (pr ++ "Orig") c.2) : Plug × Plug) = c := by
        intro c hc
        have hA := (hwf.2.2 c hc).2.1
        have hB := (hwf.2.2 c hc).2.2.2
        unfold renamePlug
        simp [hA, hB]
      rw [List.map_congr_left hid, List.map_id']
  rw [h4]
  rfl

/-! From shape-list membership to nodes, under distinct names. -/

theorem find?_append_of_isSome {α : Type} {l₁ l₂ : List α} {p : α → Bool}
    (h : (l₁.find? p).isSome) : (l₁ ++ l₂).find? p = l₁.find? p := by
  rw [List.find?_append]
  cases hf : l₁.find? p with
  | none => rw [hf] at h; simp at h
  | some a => rfl

theorem mem_shapes_elim (sc : Scene) (s x : String) (h : x ∈ sc.listRelativesShapes s) :
    ∃ nd, nd ∈ sc.nodes ∧ nd.name = x ∧ nd.parent = some s ∧ nd.isShape = true := by
  unfold Scene.listRelativesShapes at h
  rw [List.mem_map] at h
  obtain ⟨nd, hmem, hname⟩ := h
  rw [List.mem_filter] at hmem
  refine ⟨nd, hmem.1, hname, ?_, ?_⟩
  · have := hmem.2
    simp at this
    exact this.1
  · have := hmem.2
    simp at this
    exact this.2

theorem primary_mem (sc : Scene) (s : String) (h : sc.listRelativesShapes s ≠ []) :
    primaryShapeOf sc s ∈ sc.listRelativesShapes s := by
  unfold primaryShapeOf
  dsimp only
  cases hf : (sc.listRelativesShapes s).find?
      (fun x => ! sc.getAttrTruthy (x, ".intermediateObject")) with
  | some y =>
    simpa using List.mem_of_find?_eq_some hf
  | none =>
    simp only [Option.getD_none]
    cases hc : sc.listRelativesShapes s with
    | nil => exact absurd hc h
    | cons a t => simp

theorem find?_name_of_mem_nodup (l : List Node) (nd : Node)
    (hnd : (l.map Node.name).Nodup) (h : nd ∈ l) :
    l.find? (fun x => x.name == nd.name) = some nd := by
  induction l with
  | nil => cases h
  | cons hd tl ih =>
    rcases List.mem_cons.mp h with rfl | hmem
    · simp [List.find?_cons]
    · have hhd : hd.name ≠ nd.name := by
        intro he
        have hmm : nd.name ∈ tl.map Node.name := List.mem_map_of_mem _ hmem
        rw [← he] at hmm
        rw [List.map_cons, List.nodup_cons] at hnd
        exact hnd.1 hmm
      rw [List.map_cons, List.nodup_cons] at hnd
      rw [List.find?_cons_of_neg _ (by simpa using hhd)]
      exact ih hnd.2 hmem

/-- The primary shape resolves to a shape-child node of the surface. -/
theorem findNode_primary (sc : Scene) (s : String) (hwf : sc.wf)
    (h : sc.listRelativesShapes s ≠ []) :
    ∃ nd, sc.findNode (primaryShapeOf sc s) = some nd ∧ nd ∈ sc.nodes ∧
      nd.name = primaryShapeOf sc s ∧ nd.parent = some s ∧ nd.isShape = true := by
  obtain ⟨nd, hmem, hname, hpar, hshape⟩ := mem_shapes_elim sc s _ (primary_mem sc s h)
  refine ⟨nd, ?_, hmem, hname, hpar, hshape⟩
  unfold Scene.findNode
  rw [← hname]
  exact find?_name_of_mem_nodup sc.nodes nd hwf.1 hmem

theorem surface_ne_dupS (sc : Scene) (s : String) (hwf : sc.wf)
    (h : sc.listRelativesShapes s ≠ []) : s ≠ dupShapeName := by
  obtain ⟨nd, _, hmem, _, hpar, _⟩ := findNode_primary sc s hwf h
  intro he
  have := (hwf.2.1 nd hmem).2.2.2
  rw [hpar] at this
  exact this (by rw [he])

/-- Case analysis of every run that does not end in a scene-state error:
it reaches the pin phase, either with the pre-existing intermediate shape or
with the freshly synthesized one. -/
theorem run_shape (o s : String) (u v : Rat) (ls nz : Bool) (na ta : Option String)
    (rt : Bool) (sc : Scene) (hwf : sc.wf)
    (hne : resIsSceneErr (make_uv_pin o s u v ls nz na ta rt sc) = false) :
    (∃ so ai aw ao, sc.listRelativesShapes s ≠ [] ∧
       attrNamesFor (sc.objectType (primaryShapeOf sc s)) = some (ai, aw, ao) ∧
       shapeOriginOf sc s = some so ∧
       make_uv_pin o s u v ls nz na ta rt sc
         = pinPhase o u v ls nz na ta (primaryShapeOf sc s) so aw ao sc) ∨
    (∃ nd ai aw ao, sc.listRelativesShapes s ≠ [] ∧
       attrNamesFor (sc.objectType (primaryShapeOf sc s)) = some (ai, aw, ao) ∧
       shapeOriginOf sc s = none ∧
       sc.findNode (primaryShapeOf sc s) = some nd ∧ nd.isShape = true ∧
       nd.parent = some s ∧
       make_uv_pin o s u v ls nz na ta rt sc
         = pinPhase o u v ls nz na ta (primaryShapeOf sc s)
             (primaryShapeOf sc s ++ "Orig") aw ao
             (synthScene s (primaryShapeOf sc s) ai aw nd sc)) := by
  by_cases h1 : sc.listRelativesShapes s = []
  · rw [run_noShapes o s u v ls nz na ta rt sc h1] at hne
    simp [resIsSceneErr] at hne
  · cases hA : attrNamesFor (sc.objectType (primaryShapeOf sc s)) with
    | none =>
      rw [run_badType o s u v ls nz na ta rt sc h1 hA] at hne
      simp [resIsSceneErr] at hne
    | some triple =>
      obtain ⟨ai, aw, ao⟩ := triple
      cases hO : shapeOriginOf sc s with
      | some so =>
        exact Or.inl ⟨so, ai, aw, ao, h1, rfl, rfl,
          run_withOrigin o s u v ls nz na ta rt sc ai aw ao so h1 hA hO⟩
      | none =>
        obtain ⟨nd, hfind, hmem, hname, hpar, hshape⟩ := findNode_primary sc s hwf h1
        have hs := surface_ne_dupS sc s hwf h1
        refine Or.inr ⟨nd, ai, aw, ao, h1, rfl, rfl, hfind, hshape, hpar, ?_⟩
        rw [run_synth o s u v ls nz na ta rt sc ai aw ao h1 hA hO]
        rw [synthOrigin_eq s (primaryShapeOf sc s) ai aw sc nd hwf hfind hshape hs]

/-! Reading the final scene of the pin phase. -/

/-- The attribute-setting tail of the pin phase (everything after the axis
resolution point), as a function of the scene reached there. -/
def pinTailScene (o : String) (u v : Rat) (ls nz : Bool) (kn kt : Int) (y : Scene) : Scene :=
  let uv_pin := o ++ "_uvPin"
  let s5 := y.setAttr (uv_pin, ".normalAxis") (.int kn)
  let s6 := s5.setAttr (uv_pin, ".tangentAxis") (.int kt)
  let s7 := s6.setAttr (uv_pin, ".normalizedIsoParms") (.int 0)
  let s8 := s7.setAttr (uv_pin, ".coordinate[0]") (.float2 u v)
  let s9 := s8.connectAttr (uv_pin, ".outputMatrix[0]") (o, ".offsetParentMatrix") false
  let s10 := if nz then s9.setAttr (uv_pin, ".normalizedIsoParms") (.int 1) else s9
  if ls then s10.setAttr (uv_pin, ".relativeSpaceMode") (.int 1)
  else s10.setAttr (o, ".inheritsTransform") (.int 0)

theorem pinScene_eq (o : String) (u v : Rat) (ls nz : Bool) (kn kt : Int)
    (pr so aw ao : String) (sc : Scene) :
    pinScene o u v ls nz kn kt pr so aw ao sc
      = pinTailScene o u v ls nz kn kt (pinErrScene o pr so aw ao sc) := rfl

/-- Attribute reads not aimed at the pin node nor at `.inheritsTransform`
pass through the tail unchanged. -/
theorem getAttrVal_pinTail_other (o : String) (u v : Rat) (ls nz : Bool) (kn kt : Int)
    (y : Scene) (n b : String) (hn : n ≠ o ++ "_uvPin") (hb : b ≠ ".inheritsTransform") :
    (pinTailScene o u v ls nz kn kt y).getAttrVal (n, b) = y.getAttrVal (n, b) := by
  unfold pinTailScene
  dsimp only
  have core : ∀ y' : Scene,
      (((((y'.setAttr (o ++ "_uvPin", ".normalAxis") (.int kn)).setAttr
          (o ++ "_uvPin", ".tangentAxis") (.int kt)).setAttr
          (o ++ "_uvPin", ".normalizedIsoParms") (.int 0)).setAttr
          (o ++ "_uvPin", ".coordinate[0]") (.float2 u v)).connectAttr
          (o ++ "_uvPin", ".outputMatrix[0]") (o, ".offsetParentMatrix") false).getAttrVal
          (n, b)
        = y'.getAttrVal (n, b) := by
    intro y'
    rw [getAttrVal_connectAttr,
      getAttrVal_setAttr_nodeNe _ _ _ _ _ hn, getAttrVal_setAttr_nodeNe _ _ _ _ _ hn,
      getAttrVal_setAttr_nodeNe _ _ _ _ _ hn, getAttrVal_setAttr_nodeNe _ _ _ _ _ hn]
  by_cases hls : ls
  · rw [if_pos hls]
    rw [getAttrVal_setAttr_nodeNe _ _ _ _ _ hn]
    by_cases hnz : nz
    · rw [if_pos hnz, getAttrVal_setAttr_nodeNe _ _ _ _ _ hn, core]
    · rw [if_neg hnz, core]
  · rw [if_neg hls]
    rw [getAttrVal_setAttr_attrNe _ _ _ _ _ hb]
    by_cases hnz : nz
    · rw [if_pos hnz, getAttrVal_setAttr_nodeNe _ _ _ _ _ hn, core]
    · rw [if_neg hnz, core]

/-- In local-space mode the tail never touches `.inheritsTransform`, so every
read off the pin node passes through. -/
theorem getAttrVal_pinTail_ls_true (o : String) (u v : Rat) (nz : Bool) (kn kt : Int)
    (y : Scene) (n b : String) (hn : n ≠ o ++ "_uvPin") :
    (pinTailScene o u v true nz kn kt y).getAttrVal (n, b) = y.getAttrVal (n, b) := by
  unfold pinTailScene
  dsimp only
  have core : ∀ y' : Scene,
      (((((y'.setAttr (o ++ "_uvPin", ".normalAxis") (.int kn)).setAttr
          (o ++ "_uvPin", ".tangentAxis") (.int kt)).setAttr
          (o ++ "_uvPin", ".normalizedIsoParms") (.int 0)).setAttr
          (o ++ "_uvPin", ".coordinate[0]") (.float2 u v)).connectAttr
          (o ++ "_uvPin", ".outputMatrix[0]") (o, ".offsetParentMatrix") false).getAttrVal
          (n, b)
        = y'.getAttrVal (n, b) := by
    intro y'
    rw [getAttrVal_connectAttr,
      getAttrVal_setAttr_nodeNe _ _ _ _ _ hn, getAttrVal_setAttr_nodeNe _ _ _ _ _ hn,
      getAttrVal_setAttr_nodeNe _ _ _ _ _ hn, getAttrVal_setAttr_nodeNe _ _ _ _ _ hn]
  rw [if_pos rfl]
  rw [getAttrVal_setAttr_nodeNe _ _ _ _ _ hn]
  by_cases hnz : nz
  · rw [if_pos hnz, getAttrVal_setAttr_nodeNe _ _ _ _ _ hn, core]
  · rw [if_neg hnz, core]

/-- Outside local-space mode the tail disables the pinned object's
inherit-transform flag. -/
theorem getAttrVal_pinTail_inherits (o : String) (u v : Rat) (nz : Bool) (kn kt : Int)
    (y : Scene) (hy : (y.findNode o).isSome) :
    (pinTailScene o u v false nz kn kt y).getAttrVal (o, ".inheritsTransform")
      = some (.int 0) := by
  unfold pinTailScene
  dsimp only
  rw [if_neg (by simp)]
  apply getAttrVal_setAttr_same
  have hc : ∀ y' : Scene, (y'.findNode o).isSome
      → ((((((y'.setAttr (o ++ "_uvPin", ".normalAxis") (.int kn)).setAttr
          (o ++ "_uvPin", ".tangentAxis") (.int kt)).setAttr
          (o ++ "_uvPin", ".normalizedIsoParms") (.int 0)).setAttr
          (o ++ "_uvPin", ".coordinate[0]") (.float2 u v)).connectAttr
          (o ++ "_uvPin", ".outputMatrix[0]") (o, ".offsetParentMatrix") false).findNode
          o).isSome := by
    intro y' hy'
    rw [findNode_connectAttr, isSome_findNode_setAttr, isSome_findNode_setAttr,
      isSome_findNode_setAttr, isSome_findNode_setAttr]
    exact hy'
  by_cases hnz : nz
  · rw [if_pos hnz, isSome_findNode_setAttr]
    exact hc y hy
  · rw [if_neg hnz]
    exact hc y hy

/-- The pin node as the tail leaves it when the pin name is fresh. -/
def finalPinNode (o : String) (u v : Rat) (ls nz : Bool) (kn kt : Int) : Node :=
  let n0 : Node :=
    { name := o ++ "_uvPin", typ := "uvPin", parent := none, isShape := false, attrs := [] }
  let n1 := n0.setAttrVal ".normalAxis" (.int kn)
  let n2 := n1.setAttrVal ".tangentAxis" (.int kt)
  let n3 := n2.setAttrVal ".normalizedIsoParms" (.int 0)
  let n4 := n3.setAttrVal ".coordinate[0]" (.float2 u v)
  let n5 := if nz then n4.setAttrVal ".normalizedIsoParms" (.int 1) else n4
  if ls then n5.setAttrVal ".relativeSpaceMode" (.int 1) else n5

theorem findNode_pin_pinScene (o : String) (u v : Rat) (ls nz : Bool) (kn kt : Int)
    (pr so aw ao : String) (sc : Scene)
    (hfresh : ∀ x ∈ sc.nodes, x.name ≠ o ++ "_uvPin") :
    (pinScene o u v ls nz kn kt pr so aw ao sc).findNode (o ++ "_uvPin")
      = some (finalPinNode o u v ls nz kn kt) := by
  have hfind0 : sc.findNode (o ++ "_uvPin") = none := by
    unfold Scene.findNode
    rw [List.find?_eq_none]
    intro x hx
    simpa using hfresh x hx
  have hpo : ¬ (o ++ "_uvPin") = o := pin_ne_obj o
  unfold pinScene Scene.xform finalPinNode
  dsimp only
  by_cases hls : ls <;> by_cases hnz : nz <;>
    simp [hls, hnz, findNode_setAttr, findNode_connectAttr, findNode_createNode, hfind0,
      name_setAttrVal, hpo]

theorem finalPinNode_attrs (o : String) (u v : Rat) (ls nz : Bool) (kn kt : Int) :
    (finalPinNode o u v ls nz kn kt).attrVal ".normalAxis" = some (.int kn) ∧
    (finalPinNode o u v ls nz kn kt).attrVal ".tangentAxis" = some (.int kt) ∧
    (finalPinNode o u v ls nz kn kt).attrVal ".coordinate[0]" = some (.float2 u v) ∧
    (finalPinNode o u v ls nz kn kt).attrVal ".relativeSpaceMode"
      = (if ls then some (.int 1) else none) := by
  cases ls <;> cases nz <;> exact ⟨rfl, rfl, rfl, rfl⟩

theorem getAttrVal_pin_pinScene (o : String) (u v : Rat) (ls nz : Bool) (kn kt : Int)
    (pr so aw ao : String) (sc : Scene) (b : String)
    (hfresh : ∀ x ∈ sc.nodes, x.name ≠ o ++ "_uvPin") :
    (pinScene o u v ls nz kn kt pr so aw ao sc).getAttrVal (o ++ "_uvPin", b)
      = (finalPinNode o u v ls nz kn kt).attrVal b := by
  unfold Scene.getAttrVal
  rw [findNode_pin_pinScene o u v ls nz kn kt pr so aw ao sc hfresh]
  rfl

theorem conns_pinErrScene (o pr so aw ao : String) (sc : Scene) :
    (pinErrScene o pr so aw ao sc).conns
      = ((so, ao), (o ++ "_uvPin", ".originalGeometry"))
        :: ((pr, aw), (o ++ "_uvPin", ".deformedGeometry")) :: sc.conns := rfl

theorem conns_pinScene (o : String) (u v : Rat) (ls nz : Bool) (kn kt : Int)
    (pr so aw ao : String) (sc : Scene) :
    (pinScene o u v ls nz kn kt pr so aw ao sc).conns
      = ((o ++ "_uvPin", ".outputMatrix[0]"), (o, ".offsetParentMatrix"))
        :: ((so, ao), (o ++ "_uvPin", ".originalGeometry"))
        :: ((pr, aw), (o ++ "_uvPin", ".deformedGeometry")) :: sc.conns := by
  cases ls <;> cases nz <;> rfl

theorem names_map_setAttr (sc : Scene) (p : Plug) (v : AttrVal) :
    (sc.setAttr p v).nodes.map Node.name = sc.nodes.map Node.name :=
  names_eq_of_skel_eq (skel_map_setAttr sc p v)

theorem names_pinErrScene (o pr so aw ao : String) (sc : Scene) :
    (pinErrScene o pr so aw ao sc).nodes.map Node.name
      = sc.nodes.map Node.name ++ [o ++ "_uvPin"] := by
  unfold pinErrScene Scene.xform
  rw [names_map_setAttr, names_map_setAttr, nodes_connectAttr, nodes_connectAttr]
  unfold Scene.createNode
  simp

theorem skel_map_pinErrScene (o pr so aw ao : String) (sc : Scene) :
    (pinErrScene o pr so aw ao sc).nodes.map Node.skel
      = sc.nodes.map Node.skel ++ [(o ++ "_uvPin", "uvPin", none, false)] := by
  unfold pinErrScene
  rw [skel_map_xform, nodes_connectAttr, nodes_connectAttr, skel_map_createNode]

theorem skel_map_pinScene (o : String) (u v : Rat) (ls nz : Bool) (kn kt : Int)
    (pr so aw ao : String) (sc : Scene) :
    (pinScene o u v ls nz kn kt pr so aw ao sc).nodes.map Node.skel
      = sc.nodes.map Node.skel ++ [(o ++ "_uvPin", "uvPin", none, false)] := by
  rw [pinScene_eq]
  unfold pinTailScene
  cases ls <;> cases nz <;>
    simp [skel_map_setAttr, nodes_connectAttr, skel_map_pinErrScene]

theorem names_pinScene (o : String) (u v : Rat) (ls nz : Bool) (kn kt : Int)
    (pr so aw ao : String) (sc : Scene) :
    (pinScene o u v ls nz kn kt pr so aw ao sc).nodes.map Node.name
      = sc.nodes.map Node.name ++ [o ++ "_uvPin"] := by
  rw [pinScene_eq]
  unfold pinTailScene
  cases ls <;> cases nz <;>
    simp [names_map_setAttr, nodes_connectAttr, names_pinErrScene]

/-! Reading the synthesized scene. -/

theorem getAttrVal_congr_nodes (sc1 sc2 : Scene) (p : Plug) (h : sc1.nodes = sc2.nodes) :
    sc1.getAttrVal p = sc2.getAttrVal p := by
  unfold Scene.getAttrVal Scene.findNode
  rw [h]

theorem nodes_synthScene (s pr ai aw : String) (nd : Node) (sc : Scene) :
    (synthScene s pr ai aw nd sc).nodes
      = ((Scene.mk (sc.nodes ++ [origSNode pr s nd]) sc.conns).setAttr
          (pr ++ "Orig", ".intermediateObject") (.int 1)).nodes := by
  unfold synthScene
  dsimp only
  split <;> rfl

theorem names_synthScene (s pr ai aw : String) (nd : Node) (sc : Scene) :
    (synthScene s pr ai aw nd sc).nodes.map Node.name
      = sc.nodes.map Node.name ++ [pr ++ "Orig"] := by
  have h := nodes_synthScene s pr ai aw nd sc
  calc (synthScene s pr ai aw nd sc).nodes.map Node.name
      = ((Scene.mk (sc.nodes ++ [origSNode pr s nd]) sc.conns).setAttr
          (pr ++ "Orig", ".intermediateObject") (.int 1)).nodes.map Node.name := by rw [h]
    _ = (Scene.mk (sc.nodes ++ [origSNode pr s nd]) sc.conns).nodes.map Node.name :=
        names_map_setAttr _ _ _
    _ = sc.nodes.map Node.name ++ [pr ++ "Orig"] := by
        simp [origSNode]

theorem getAttrVal_synthScene_left (s pr ai aw : String) (nd : Node) (sc : Scene)
    (n b : String) (hn : (sc.findNode n).isSome) (hb : b ≠ ".intermediateObject") :
    (synthScene s pr ai aw nd sc).getAttrVal (n, b) = sc.getAttrVal (n, b) := by
  have h0 : (synthScene s pr ai aw nd sc).getAttrVal (n, b)
      = ((Scene.mk (sc.nodes ++ [origSNode pr s nd]) sc.conns).setAttr
          (pr ++ "Orig", ".intermediateObject") (.int 1)).getAttrVal (n, b) := by
    apply getAttrVal_congr_nodes
    exact nodes_synthScene s pr ai aw nd sc
  rw [h0, getAttrVal_setAttr_attrNe _ _ _ _ _ hb]
  unfold Scene.getAttrVal Scene.findNode
  dsimp only
  rw [find?_append_of_isSome hn]

theorem isSome_findNode_synthScene (s pr ai aw : String) (nd : Node) (sc : Scene)
    (n : String) (hn : (sc.findNode n).isSome) :
    ((synthScene s pr ai aw nd sc).findNode n).isSome := by
  have h0 : (synthScene s pr ai aw nd sc).findNode n
      = ((Scene.mk (sc.nodes ++ [origSNode pr s nd]) sc.conns).setAttr
          (pr ++ "Orig", ".intermediateObject") (.int 1)).findNode n := by
    unfold Scene.findNode
    rw [nodes_synthScene s pr ai aw nd sc]
  rw [h0, isSome_findNode_setAttr]
  show (((Scene.mk (sc.nodes ++ [origSNode pr s nd]) sc.conns)).findNode n).isSome
  unfold Scene.findNode
  dsimp only
  rw [find?_append_of_isSome hn]
  exact hn

theorem isSome_findNode_pinErrScene (o pr so aw ao : String) (sc : Scene) (n : String)
    (hn : (sc.findNode n).isSome) :
    ((pinErrScene o pr so aw ao sc).findNode n).isSome := by
  unfold pinErrScene
  rw [isSome_findNode_xform, findNode_connectAttr, findNode_connectAttr]
  exact isSome_findNode_createNode _ _ _ _ hn

theorem getAttrVal_pinErrScene_other (o pr so aw ao : String) (sc : Scene) (n b : String)
    (hn : (sc.findNode n).isSome) (hb1 : b ≠ ".translate") (hb2 : b ≠ ".rotate") :
    (pinErrScene o pr so aw ao sc).getAttrVal (n, b) = sc.getAttrVal (n, b) := by
  unfold pinErrScene Scene.xform
  rw [getAttrVal_setAttr_attrNe _ _ _ _ _ hb2, getAttrVal_setAttr_attrNe _ _ _ _ _ hb1,
    getAttrVal_connectAttr, getAttrVal_connectAttr,
    getAttrVal_createNode_of_found _ _ _ _ hn]

/-- The pin phase zeroes the pinned object's translation and rotation, at the
error point already. -/
theorem pinErr_reads (o pr so aw ao : String) (sc : Scene)
    (ho : (sc.findNode o).isSome) :
    (pinErrScene o pr so aw ao sc).getAttrVal (o, ".translate") = some (.vec3 0 0 0) ∧
    (pinErrScene o pr so aw ao sc).getAttrVal (o, ".rotate") = some (.vec3 0 0 0) := by
  unfold pinErrScene Scene.xform
  have hiso : ((((sc.createNode "uvPin" (o ++ "_uvPin")).connectAttr
      (pr, aw) (o ++ "_uvPin", ".deformedGeometry") false).connectAttr
      (so, ao) (o ++ "_uvPin", ".originalGeometry") false).findNode o).isSome := by
    rw [findNode_connectAttr, findNode_connectAttr]
    exact isSome_findNode_createNode sc "uvPin" (o ++ "_uvPin") o ho
  constructor
  · rw [getAttrVal_setAttr_attrNe _ _ _ _ _
      (show (".translate" : String) ≠ ".rotate" by decide)]
    exact getAttrVal_setAttr_same _ _ _ hiso
  · apply getAttrVal_setAttr_same
    rw [isSome_findNode_setAttr]
    exact hiso

theorem fresh_synthScene (s pr ai aw : String) (nd : Node) (sc : Scene) (o : String)
    (hfresh : ∀ x ∈ sc.nodes, x.name ≠ o ++ "_uvPin") :
    ∀ x ∈ (synthScene s pr ai aw nd sc).nodes, x.name ≠ o ++ "_uvPin" := by
  intro x hx
  have hmm : x.name ∈ (synthScene s pr ai aw nd sc).nodes.map Node.name :=
    List.mem_map_of_mem _ hx
  rw [names_synthScene] at hmm
  rcases List.mem_append.mp hmm with hl | hr
  · obtain ⟨y, hy, hyn⟩ := List.mem_map.mp hl
    rw [← hyn]
    exact hfresh y hy
  · simp at hr
    rw [hr]
    exact orig_ne_pin pr o

theorem invalid_iff_normal (na : Option String) :
    invalidAxisArg na = true ↔ normalEnumOf na = none := by
  unfold invalidAxisArg normalEnumOf
  by_cases h : strTruthy na <;> simp [h, Option.isNone_iff_eq_none]

theorem invalid_iff_tangent (ta : Option String) :
    invalidAxisArg ta = true ↔ tangentEnumOf ta = none := by
  unfold invalidAxisArg tangentEnumOf
  by_cases h : strTruthy ta <;> simp [h, Option.isNone_iff_eq_none]

theorem synthOrigin_cases (s pr ai aw : String) (sc : Scene) :
    (∃ so, (synthOrigin s pr ai aw sc).1 = .ok so) ∨
    (synthOrigin s pr ai aw sc).1
      = .error (.sceneError "Could not create intermediate shape.") := by
  unfold synthOrigin
  dsimp only
  split
  · exact Or.inr rfl
  · exact Or.inl ⟨_, rfl⟩

/-- Every run that does not end in a scene-state error reaches the pin phase. -/
theorem run_reach (o s : String) (u v : Rat) (ls nz : Bool) (na ta : Option String)
    (rt : Bool) (sc : Scene)
    (hne : resIsSceneErr (make_uv_pin o s u v ls nz na ta rt sc) = false) :
    ∃ pr so' aw ao scB,
      make_uv_pin o s u v ls nz na ta rt sc
        = pinPhase o u v ls nz na ta pr so' aw ao scB := by
  by_cases h1 : sc.listRelativesShapes s = []
  · rw [run_noShapes o s u v ls nz na ta rt sc h1] at hne
    simp [resIsSceneErr] at hne
  · cases hA : attrNamesFor (sc.objectType (primaryShapeOf sc s)) with
    | none =>
      rw [run_badType o s u v ls nz na ta rt sc h1 hA] at hne
      simp [resIsSceneErr] at hne
    | some triple =>
      obtain ⟨ai, aw, ao⟩ := triple
      cases hO : shapeOriginOf sc s with
      | some so =>
        exact ⟨_, so, aw, ao, sc, run_withOrigin o s u v ls nz na ta rt sc ai aw ao so h1 hA hO⟩
      | none =>
        have heq := run_synth o s u v ls nz na ta rt sc ai aw ao h1 hA hO
        cases hS : synthOrigin s (primaryShapeOf sc s) ai aw sc with
        | mk r sc' =>
          cases r with
          | ok so =>
            rw [hS] at heq
            exact ⟨_, so, aw, ao, sc', heq⟩
          | error e =>
            rw [hS] at heq
            rcases synthOrigin_cases s (primaryShapeOf sc s) ai aw sc with ⟨so, hok⟩ | herr
            · rw [hS] at hok
              simp at hok
            · rw [hS] at herr
              simp at herr
              rw [heq] at hne
              rw [herr] at hne
              simp [resIsSceneErr] at hne

theorem resIsSceneErr_of_ok (r : Except Err String × Scene)
    (h : resIsOk r = true) : resIsSceneErr r = false := by
  unfold resIsOk at h
  unfold resIsSceneErr
  cases hr : r.1 with
  | ok x => rfl
  | error e => rw [hr] at h; simp at h

/-- Every successful run returns the pin name and ends in `pinScene` applied
to a base scene `scB` that preserves the relevant reads of `sc`. -/
theorem run_ok (o s : String) (u v : Rat) (ls nz : Bool) (na ta : Option String)
    (rt : Bool) (sc : Scene) (hwf : sc.wf)
    (hok : resIsOk (make_uv_pin o s u v ls nz na ta rt sc) = true) :
    ∃ pr so' aw ao scB kn kt,
      normalEnumOf na = some kn ∧ tangentEnumOf ta = some kt ∧
      make_uv_pin o s u v ls nz na ta rt sc
        = (.ok (o ++ "_uvPin"), pinScene o u v ls nz kn kt pr so' aw ao scB) ∧
      ((∀ x ∈ sc.nodes, x.name ≠ o ++ "_uvPin")
        → ∀ x ∈ scB.nodes, x.name ≠ o ++ "_uvPin") ∧
      (∀ n, (sc.findNode n).isSome → (scB.findNode n).isSome) ∧
      (∀ n b, (sc.findNode n).isSome → b ≠ ".intermediateObject" →
        scB.getAttrVal (n, b) = sc.getAttrVal (n, b)) := by
  have hne := resIsSceneErr_of_ok _ hok
  rcases run_shape o s u v ls nz na ta rt sc hwf hne with
    ⟨so', ai, aw, ao, h1, hA, hO, heq⟩ |
    ⟨nd, ai, aw, ao, h1, hA, hO, hfind, hshape, hpar, heq⟩
  · cases hn : normalEnumOf na with
    | none =>
      rw [heq, pinPhase_errN o u v ls nz na ta _ _ aw ao _ hn] at hok
      simp [resIsOk] at hok
    | some kn =>
      cases ht : tangentEnumOf ta with
      | none =>
        rw [heq, pinPhase_errT o u v ls nz na ta _ _ aw ao _ kn hn ht] at hok
        simp [resIsOk] at hok
      | some kt =>
        exact ⟨_, so', aw, ao, sc, kn, kt, rfl, rfl,
          by rw [heq, pinPhase_ok o u v ls nz na ta _ so' aw ao sc kn kt hn ht],
          fun h => h, fun n h => h, fun n b h _ => rfl⟩
  · cases hn : normalEnumOf na with
    | none =>
      rw [heq, pinPhase_errN o u v ls nz na ta _ _ aw ao _ hn] at hok
      simp [resIsOk] at hok
    | some kn =>
      cases ht : tangentEnumOf ta with
      | none =>
        rw [heq, pinPhase_errT o u v ls nz na ta _ _ aw ao _ kn hn ht] at hok
        simp [resIsOk] at hok
      | some kt =>
        refine ⟨_, _, aw, ao, synthScene s (primaryShapeOf sc s) ai aw nd sc, kn, kt,
          rfl, rfl,
          by rw [heq, pinPhase_ok o u v ls nz na ta _ _ aw ao _ kn kt hn ht], ?_, ?_, ?_⟩
        · exact fun h => fresh_synthScene s (primaryShapeOf sc s) ai aw nd sc o h
        · exact fun n h => isSome_findNode_synthScene s (primaryShapeOf sc s) ai aw nd sc n h
        · exact fun n b h hb =>
            getAttrVal_synthScene_left s (primaryShapeOf sc s) ai aw nd sc n b h hb

/-- In every outcome of the pin phase (success or an axis argument error),
the pinned object's translation and rotation have been zeroed. -/
theorem pin_translate_rotate (o : String) (u v : Rat) (ls nz : Bool) (na ta : Option String)
    (pr so aw ao : String) (sc : Scene) (ho : (sc.findNode o).isSome) :
    (pinPhase o u v ls nz na ta pr so aw ao sc).2.getAttrVal (o, ".translate")
      = some (.vec3 0 0 0) ∧
    (pinPhase o u v ls nz na ta pr so aw ao sc).2.getAttrVal (o, ".rotate")
      = some (.vec3 0 0 0) := by
  cases hn : normalEnumOf na with
  | none =>
    rw [pinPhase_errN o u v ls nz na ta pr so aw ao sc hn]
    exact pinErr_reads o pr so aw ao sc ho
  | some kn =>
    cases ht : tangentEnumOf ta with
    | none =>
      rw [pinPhase_errT o u v ls nz na ta pr so aw ao sc kn hn ht]
      dsimp only
      constructor
      · rw [getAttrVal_setAttr_nodeNe _ _ _ _ _ (Ne.symm (pin_ne_obj o))]
        exact (pinErr_reads o pr so aw ao sc ho).1
      · rw [getAttrVal_setAttr_nodeNe _ _ _ _ _ (Ne.symm (pin_ne_obj o))]
        exact (pinErr_reads o pr so aw ao sc ho).2
    | some kt =>
      rw [pinPhase_ok o u v ls nz na ta pr so aw ao sc kn kt hn ht]
      dsimp only
      rw [pinScene_eq]
      constructor
      · rw [getAttrVal_pinTail_other _ _ _ _ _ _ _ _ _ _ (Ne.symm (pin_ne_obj o))
          (show (".translate" : String) ≠ ".inheritsTransform" by decide)]
        exact (pinErr_reads o pr so aw ao sc ho).1
      · rw [getAttrVal_pinTail_other _ _ _ _ _ _ _ _ _ _ (Ne.symm (pin_ne_obj o))
          (show (".rotate" : String) ≠ ".inheritsTransform" by decide)]
        exact (pinErr_reads o pr so aw ao sc ho).2

/-- Claim C1: the run of `make_uv_pin` is identical for any two values of
`reset_transforms` (the flag has no effect on any behaviour), and every
invocation that reaches the pin-creation step (that is, does not abort with
a scene-state error) leaves the pinned object's local translation and
rotation zeroed in the resulting scene. -/
theorem claim1_reset_transforms_unused (o s : String) (u v : Rat) (ls nz : Bool)
    (na ta : Option String) (rt rt' : Bool) (sc : Scene) :
    make_uv_pin o s u v ls nz na ta rt sc = make_uv_pin o s u v ls nz na ta rt' sc ∧
    (sc.wf → (sc.findNode o).isSome →
      resIsSceneErr (make_uv_pin o s u v ls nz na ta rt sc) = false →
      (make_uv_pin o s u v ls nz na ta rt sc).2.getAttrVal (o, ".translate")
        = some (.vec3 0 0 0) ∧
      (make_uv_pin o s u v ls nz na ta rt sc).2.getAttrVal (o, ".rotate")
        = some (.vec3 0 0 0)) := by
  refine ⟨rfl, ?_⟩
  intro hwf ho hne
  rcases run_shape o s u v ls nz na ta rt sc hwf hne with
    ⟨so', ai, aw, ao, h1, hA, hO, heq⟩ |
    ⟨nd, ai, aw, ao, h1, hA, hO, hfind, hshape, hpar, heq⟩
  · rw [heq]
    exact pin_translate_rotate o u v ls nz na ta (primaryShapeOf sc s) so' aw ao sc ho
  · rw [heq]
    apply pin_translate_rotate
    exact isSome_findNode_synthScene s (primaryShapeOf sc s) ai aw nd sc o ho

/-- Witness for C1 at a concrete scene. -/
theorem claim1_witness :
    make_uv_pin "cube1" "plane1" 0 0 false false none none true sampleScene
      = make_uv_pin "cube1" "plane1" 0 0 false false none none false sampleScene ∧
    (make_uv_pin "cube1" "plane1" 0 0 false false none none true sampleScene).2.getAttrVal
      ("cube1", ".translate") = some (.vec3 0 0 0) := by
  have h := claim1_reset_transforms_unused "cube1" "plane1" 0 0 false false none none
    true false sampleScene
  exact ⟨h.1, (h.2 (by decide) (by decide) (by decide)).1⟩

theorem attrNamesFor_eq_none (t : String) (hm : t ≠ "mesh") (hn : t ≠ "nurbsSurface") :
    attrNamesFor t = none := by
  unfold attrNamesFor
  simp [hm, hn]

/-- Claim C4: with no shape child, or with a primary shape of unsupported
type, `make_uv_pin` aborts through the host's fatal-error mechanism with a
descriptive message, and the scene is returned unchanged (no uvPin node, no
mutation). -/
theorem claim4_scene_errors_abort_clean (o s : String) (u v : Rat) (ls nz : Bool)
    (na ta : Option String) (rt : Bool) (sc : Scene) :
    (sc.listRelativesShapes s = [] →
      make_uv_pin o s u v ls nz na ta rt sc
        = (.error (.sceneError ("No shape nodes found on surface: " ++ s)), sc)) ∧
    (sc.listRelativesShapes s ≠ [] →
      sc.objectType (primaryShapeOf sc s) ≠ "mesh" →
      sc.objectType (primaryShapeOf sc s) ≠ "nurbsSurface" →
      make_uv_pin o s u v ls nz na ta rt sc
        = (.error (.sceneError ("Unsupported surface type: "
            ++ sc.objectType (primaryShapeOf sc s))), sc)) := by
  constructor
  · intro h
    exact run_noShapes o s u v ls nz na ta rt sc h
  · intro h1 hm hn
    exact run_badType o s u v ls nz na ta rt sc h1
      (attrNamesFor_eq_none _ hm hn)

/-- A scene whose surface has no shape child. -/
def sampleSceneNoShape : Scene := { nodes := [objNode, srfNode], conns := [] }

/-- Witness for C4 on both failure kinds. -/
theorem claim4_witness :
    make_uv_pin "cube1" "plane1" 0 0 false false none none true sampleSceneNoShape
      = (.error (.sceneError ("No shape nodes found on surface: " ++ "plane1")),
         sampleSceneNoShape) ∧
    make_uv_pin "cube1" "plane1" 0 0 false false none none true sampleSceneBadType
      = (.error (.sceneError ("Unsupported surface type: "
          ++ sampleSceneBadType.objectType (primaryShapeOf sampleSceneBadType "plane1"))),
         sampleSceneBadType) := by
  constructor
  · exact (claim4_scene_errors_abort_clean "cube1" "plane1" 0 0 false false none none
      true sampleSceneNoShape).1 (by decide)
  · exact (claim4_scene_errors_abort_clean "cube1" "plane1" 0 0 false false none none
      true sampleSceneBadType).2 (by decide) (by decide) (by decide)

/-- Counterexample to C2 as stated: the empty string is a symbol outside
`{x, y, z, -x, -y, -z}`, yet an invocation passing it as `normal_axis`
raises no argument-error fault at all - it succeeds, because the Python
truthiness test `if normal_axis:` treats `""` like an omitted argument. -/
theorem claim2_counterexample :
    resIsArgErr (make_uv_pin "cube1" "plane1" 0 0 false false (some "") none true
      sampleScene2) = false ∧
    resIsOk (make_uv_pin "cube1" "plane1" 0 0 false false (some "") none true
      sampleScene2) = true := by
  decide

/-- Claim C2 (amended): for every invocation that does not abort with a
scene-state error and whose `normal_axis` or `tangent_axis` is a non-empty
symbol outside `{x, y, z, -x, -y, -z}`, `make_uv_pin` raises a catchable
argument-error fault, and at that moment the uvPin node has already been
created and its deformedGeometry/originalGeometry connections made, so the
pin node exists in the graph despite the fault. -/
theorem claim2_amended_arg_error_after_creation (o s : String) (u v : Rat)
    (ls nz : Bool) (na ta : Option String) (rt : Bool) (sc : Scene)
    (hbad : (invalidAxisArg na || invalidAxisArg ta) = true)
    (hne : resIsSceneErr (make_uv_pin o s u v ls nz na ta rt sc) = false) :
    resIsArgErr (make_uv_pin o s u v ls nz na ta rt sc) = true ∧
    (o ++ "_uvPin") ∈ (make_uv_pin o s u v ls nz na ta rt sc).2.nodes.map Node.name ∧
    (∃ src, (src, (o ++ "_uvPin", ".deformedGeometry"))
        ∈ (make_uv_pin o s u v ls nz na ta rt sc).2.conns) ∧
    (∃ src, (src, (o ++ "_uvPin", ".originalGeometry"))
        ∈ (make_uv_pin o s u v ls nz na ta rt sc).2.conns) := by
  obtain ⟨pr, so', aw, ao, scB, heq⟩ := run_reach o s u v ls nz na ta rt sc hne
  cases hn : normalEnumOf na with
  | none =>
    rw [heq, pinPhase_errN o u v ls nz na ta pr so' aw ao scB hn]
    refine ⟨rfl, ?_, ⟨(pr, aw), ?_⟩, ⟨(so', ao), ?_⟩⟩
    · dsimp only
      rw [names_pinErrScene]
      simp
    · dsimp only
      rw [conns_pinErrScene]
      simp
    · dsimp only
      rw [conns_pinErrScene]
      simp
  | some kn =>
    cases ht : tangentEnumOf ta with
    | none =>
      rw [heq, pinPhase_errT o u v ls nz na ta pr so' aw ao scB kn hn ht]
      refine ⟨rfl, ?_, ⟨(pr, aw), ?_⟩, ⟨(so', ao), ?_⟩⟩
      · dsimp only
        rw [names_map_setAttr, names_pinErrScene]
        simp
      · dsimp only
        rw [conns_setAttr, conns_pinErrScene]
        simp
      · dsimp only
        rw [conns_setAttr, conns_pinErrScene]
        simp
    | some kt =>
      exfalso
      have h1 : invalidAxisArg na = false := by
        cases hx : invalidAxisArg na with
        | false => rfl
        | true => rw [(invalid_iff_normal na).mp hx] at hn; cases hn
      have h2 : invalidAxisArg ta = false := by
        cases hx : invalidAxisArg ta with
        | false => rfl
        | true => rw [(invalid_iff_tangent ta).mp hx] at ht; cases ht
      rw [h1, h2] at hbad
      simp at hbad

/-- Witness for the amended C2 at a concrete scene and axis symbol. -/
theorem claim2_witness :
    resIsArgErr (make_uv_pin "cube1" "plane1" 0 0 false false (some "q") none true
      sampleScene2) = true ∧
    ("cube1" ++ "_uvPin") ∈ (make_uv_pin "cube1" "plane1" 0 0 false false (some "q")
      none true sampleScene2).2.nodes.map Node.name ∧
    (∃ src, (src, ("cube1" ++ "_uvPin", ".deformedGeometry"))
        ∈ (make_uv_pin "cube1" "plane1" 0 0 false false (some "q") none true
            sampleScene2).2.conns) ∧
    (∃ src, (src, ("cube1" ++ "_uvPin", ".originalGeometry"))
        ∈ (make_uv_pin "cube1" "plane1" 0 0 false false (some "q") none true
            sampleScene2).2.conns) :=
  claim2_amended_arg_error_after_creation "cube1" "plane1" 0 0 false false (some "q")
    none true sampleScene2 (by decide) (by decide)

theorem setNormalAxis_empty (p : String) (sc : Scene) :
    setNormalAxis p (some "") sc = setNormalAxis p none sc := rfl

theorem setTangentAxis_empty (p : String) (sc : Scene) :
    setTangentAxis p (some "") sc = setTangentAxis p none sc := rfl

theorem pinPhase_naEmpty (o : String) (u v : Rat) (ls nz : Bool) (ta : Option String)
    (pr so aw ao : String) (sc : Scene) :
    pinPhase o u v ls nz (some "") ta pr so aw ao sc
      = pinPhase o u v ls nz none ta pr so aw ao sc := by
  unfold pinPhase
  simp only [setNormalAxis_empty]

theorem pinPhase_taEmpty (o : String) (u v : Rat) (ls nz : Bool) (na : Option String)
    (pr so aw ao : String) (sc : Scene) :
    pinPhase o u v ls nz na (some "") pr so aw ao sc
      = pinPhase o u v ls nz na none pr so aw ao sc := by
  unfold pinPhase
  simp only [setTangentAxis_empty]

/-- Claim C10: passing the empty string as `normal_axis` or `tangent_axis`
raises no argument error; the whole run is identical to the run with the
argument omitted, and on success the default enums (normal 1, tangent 0)
are applied. -/
theorem claim10_empty_axis_as_default (o s : String) (u v : Rat) (ls nz : Bool)
    (na ta : Option String) (rt : Bool) (sc : Scene) :
    (make_uv_pin o s u v ls nz (some "") ta rt sc
      = make_uv_pin o s u v ls nz none ta rt sc) ∧
    (make_uv_pin o s u v ls nz na (some "") rt sc
      = make_uv_pin o s u v ls nz na none rt sc) ∧
    (sc.wf → (∀ x ∈ sc.nodes, x.name ≠ o ++ "_uvPin") →
      resIsOk (make_uv_pin o s u v ls nz (some "") (some "") rt sc) = true →
      (make_uv_pin o s u v ls nz (some "") (some "") rt sc).2.getAttrVal
        (o ++ "_uvPin", ".normalAxis") = some (.int 1) ∧
      (make_uv_pin o s u v ls nz (some "") (some "") rt sc).2.getAttrVal
        (o ++ "_uvPin", ".tangentAxis") = some (.int 0)) := by
  refine ⟨?_, ?_, ?_⟩
  · unfold make_uv_pin
    simp only [pinPhase_naEmpty]
  · unfold make_uv_pin
    simp only [pinPhase_taEmpty]
  · intro hwf hfresh hok
    obtain ⟨pr, so', aw, ao, scB, kn, kt, hn, ht, heq, hfreshB, _, _⟩ :=
      run_ok o s u v ls nz (some "") (some "") rt sc hwf hok
    have hkn : kn = 1 := by
      have : normalEnumOf (some "") = some 1 := rfl
      rw [this] at hn
      exact (Option.some_inj.mp hn).symm
    have hkt : kt = 0 := by
      have : tangentEnumOf (some "") = some 0 := rfl
      rw [this] at ht
      exact (Option.some_inj.mp ht).symm
    rw [heq]
    dsimp only
    rw [getAttrVal_pin_pinScene o u v ls nz kn kt pr so' aw ao scB _ (hfreshB hfresh),
      getAttrVal_pin_pinScene o u v ls nz kn kt pr so' aw ao scB _ (hfreshB hfresh)]
    rw [hkn, hkt]
    exact ⟨(finalPinNode_attrs o u v ls nz 1 0).1, (finalPinNode_attrs o u v ls nz 1 0).2.1⟩

/-- Witness for C10 at a concrete scene. -/
theorem claim10_witness :
    (make_uv_pin "cube1" "plane1" 0 0 false false (some "") none true sampleScene2
      = make_uv_pin "cube1" "plane1" 0 0 false false none none true sampleScene2) ∧
    (make_uv_pin "cube1" "plane1" 0 0 false false (some "") (some "") true
      sampleScene2).2.getAttrVal ("cube1" ++ "_uvPin", ".normalAxis")
      = some (.int 1) := by
  have h := claim10_empty_axis_as_default "cube1" "plane1" 0 0 false false none none
    true sampleScene2
  exact ⟨h.1, (h.2.2 (by decide) (by decide) (by decide)).1⟩

/-- Claim C3: on success, with `local_space = false` the pinned object's
`inheritsTransform` is set to 0 and the pin's `relativeSpaceMode` is never
written (it is absent from the fresh pin node); with `local_space = true`
the pin's `relativeSpaceMode` is set to 1 and the pinned object's
`inheritsTransform` is left exactly as it was in the input scene.  The two
branches are mutually exclusive. -/
theorem claim3_space_mode_exclusive (o s : String) (u v : Rat) (ls nz : Bool)
    (na ta : Option String) (rt : Bool) (sc : Scene)
    (hwf : sc.wf) (ho : (sc.findNode o).isSome)
    (hfresh : ∀ x ∈ sc.nodes, x.name ≠ o ++ "_uvPin")
    (hok : resIsOk (make_uv_pin o s u v ls nz na ta rt sc) = true) :
    (ls = false →
      (make_uv_pin o s u v ls nz na ta rt sc).2.getAttrVal (o, ".inheritsTransform")
        = some (.int 0) ∧
      (make_uv_pin o s u v ls nz na ta rt sc).2.getAttrVal
        (o ++ "_uvPin", ".relativeSpaceMode") = none) ∧
    (ls = true →
      (make_uv_pin o s u v ls nz na ta rt sc).2.getAttrVal
        (o ++ "_uvPin", ".relativeSpaceMode") = some (.int 1) ∧
      (make_uv_pin o s u v ls nz na ta rt sc).2.getAttrVal (o, ".inheritsTransform")
        = sc.getAttrVal (o, ".inheritsTransform")) := by
  obtain ⟨pr, so', aw, ao, scB, kn, kt, hn, ht, heq, hfreshB, hsomeB, hpresB⟩ :=
    run_ok o s u v ls nz na ta rt sc hwf hok
  have hoB : (scB.findNode o).isSome := hsomeB o ho
  have hfB := hfreshB hfresh
  constructor
  · rintro rfl
    constructor
    · rw [heq]
      dsimp only
      rw [pinScene_eq]
      exact getAttrVal_pinTail_inherits o u v nz kn kt _
        (isSome_findNode_pinErrScene o pr so' aw ao scB o hoB)
    · rw [heq]
      dsimp only
      rw [getAttrVal_pin_pinScene o u v false nz kn kt pr so' aw ao scB _ hfB]
      have hh := (finalPinNode_attrs o u v false nz kn kt).2.2.2
      simpa using hh
  · rintro rfl
    constructor
    · rw [heq]
      dsimp only
      rw [getAttrVal_pin_pinScene o u v true nz kn kt pr so' aw ao scB _ hfB]
      have hh := (finalPinNode_attrs o u v true nz kn kt).2.2.2
      simpa using hh
    · rw [heq]
      dsimp only
      rw [pinScene_eq]
      rw [getAttrVal_pinTail_ls_true o u v nz kn kt _ o ".inheritsTransform"
        (Ne.symm (pin_ne_obj o))]
      rw [getAttrVal_pinErrScene_other o pr so' aw ao scB o ".inheritsTransform" hoB
        (by decide) (by decide)]
      exact hpresB o ".inheritsTransform" ho (by decide)

/-- Witness for C3 at concrete scenes, one per branch. -/
theorem claim3_witness :
    ((make_uv_pin "cube1" "plane1" 0 0 false false none none true sampleScene2).2.getAttrVal
      ("cube1", ".inheritsTransform") = some (.int 0) ∧
     (make_uv_pin "cube1" "plane1" 0 0 false false none none true sampleScene2).2.getAttrVal
      ("cube1" ++ "_uvPin", ".relativeSpaceMode") = none) ∧
    ((make_uv_pin "cube1" "plane1" 0 0 true false none none true sampleScene2).2.getAttrVal
      ("cube1" ++ "_uvPin", ".relativeSpaceMode") = some (.int 1) ∧
     (make_uv_pin "cube1" "plane1" 0 0 true false none none true sampleScene2).2.getAttrVal
      ("cube1", ".inheritsTransform")
       = sampleScene2.getAttrVal ("cube1", ".inheritsTransform")) := by
  constructor
  · exact (claim3_space_mode_exclusive "cube1" "plane1" 0 0 false false none none true
      sampleScene2 (by decide) (by decide) (by decide) (by decide)).1 rfl
  · exact (claim3_space_mode_exclusive "cube1" "plane1" 0 0 true false none none true
      sampleScene2 (by decide) (by decide) (by decide) (by decide)).2 rfl

/-- Claim C6: on success the pin's `normalAxis` / `tangentAxis` enums hold
exactly the values of the fixed lookup table `axisEnum`
(x to 0, y to 1, z to 2, -x to 3, -y to 4, -z to 5), with defaults 1 (+Y)
for an omitted `normal_axis` and 0 (+X) for an omitted `tangent_axis`. -/
theorem claim6_axis_table (o s : String) (u v : Rat) (ls nz : Bool)
    (na ta : Option String) (rt : Bool) (sc : Scene)
    (hwf : sc.wf) (hfresh : ∀ x ∈ sc.nodes, x.name ≠ o ++ "_uvPin")
    (hok : resIsOk (make_uv_pin o s u v ls nz na ta rt sc) = true) :
    (make_uv_pin o s u v ls nz na ta rt sc).2.getAttrVal (o ++ "_uvPin", ".normalAxis")
      = (normalEnumOf na).map AttrVal.int ∧
    (make_uv_pin o s u v ls nz na ta rt sc).2.getAttrVal (o ++ "_uvPin", ".tangentAxis")
      = (tangentEnumOf ta).map AttrVal.int ∧
    axisEnum "x" = some 0 ∧ axisEnum "y" = some 1 ∧ axisEnum "z" = some 2 ∧
    axisEnum "-x" = some 3 ∧ axisEnum "-y" = some 4 ∧ axisEnum "-z" = some 5 ∧
    (na = none →
      (make_uv_pin o s u v ls nz na ta rt sc).2.getAttrVal (o ++ "_uvPin", ".normalAxis")
        = some (.int 1)) ∧
    (ta = none →
      (make_uv_pin o s u v ls nz na ta rt sc).2.getAttrVal (o ++ "_uvPin", ".tangentAxis")
        = some (.int 0)) := by
  obtain ⟨pr, so', aw, ao, scB, kn, kt, hn, ht, heq, hfreshB, hsomeB, hpresB⟩ :=
    run_ok o s u v ls nz na ta rt sc hwf hok
  have hfB := hfreshB hfresh
  have hread1 : (make_uv_pin o s u v ls nz na ta rt sc).2.getAttrVal
      (o ++ "_uvPin", ".normalAxis") = some (.int kn) := by
    rw [heq]
    dsimp only
    rw [getAttrVal_pin_pinScene o u v ls nz kn kt pr so' aw ao scB _ hfB]
    exact (finalPinNode_attrs o u v ls nz kn kt).1
  have hread2 : (make_uv_pin o s u v ls nz na ta rt sc).2.getAttrVal
      (o ++ "_uvPin", ".tangentAxis") = some (.int kt) := by
    rw [heq]
    dsimp only
    rw [getAttrVal_pin_pinScene o u v ls nz kn kt pr so' aw ao scB _ hfB]
    exact (finalPinNode_attrs o u v ls nz kn kt).2.1
  refine ⟨by rw [hread1, hn]; rfl, by rw [hread2, ht]; rfl, rfl, rfl, rfl, rfl, rfl, rfl, ?_, ?_⟩
  · rintro rfl
    have h1 : normalEnumOf none = some 1 := rfl
    rw [h1] at hn
    rw [hread1, ← Option.some_inj.mp hn]
  · rintro rfl
    have h0 : tangentEnumOf none = some 0 := rfl
    rw [h0] at ht
    rw [hread2, ← Option.some_inj.mp ht]

/-- Witness for C6 at a concrete scene. -/
theorem claim6_witness :
    (make_uv_pin "cube1" "plane1" 0 0 false false (some "-z") (some "y") true
      sampleScene2).2.getAttrVal ("cube1" ++ "_uvPin", ".normalAxis")
      = (normalEnumOf (some "-z")).map AttrVal.int ∧
    (make_uv_pin "cube1" "plane1" 0 0 false false (some "-z") (some "y") true
      sampleScene2).2.getAttrVal ("cube1" ++ "_uvPin", ".tangentAxis")
      = (tangentEnumOf (some "y")).map AttrVal.int := by
  have h := claim6_axis_table "cube1" "plane1" 0 0 false false (some "-z") (some "y")
    true sampleScene2 (by decide) (by decide) (by decide)
  exact ⟨h.1, h.2.1⟩

/-- Claim C7: on success the pin's `coordinate[0]` holds exactly the caller's
`(u, v)` pair, its `outputMatrix[0]` is connected into the pinned object's
`offsetParentMatrix`, and the run returns the new uvPin node's name as its
only output. -/
theorem claim7_coordinate_output_return (o s : String) (u v : Rat) (ls nz : Bool)
    (na ta : Option String) (rt : Bool) (sc : Scene)
    (hwf : sc.wf) (hfresh : ∀ x ∈ sc.nodes, x.name ≠ o ++ "_uvPin")
    (hok : resIsOk (make_uv_pin o s u v ls nz na ta rt sc) = true) :
    (make_uv_pin o s u v ls nz na ta rt sc).1 = .ok (o ++ "_uvPin") ∧
    (make_uv_pin o s u v ls nz na ta rt sc).2.getAttrVal (o ++ "_uvPin", ".coordinate[0]")
      = some (.float2 u v) ∧
    ((o ++ "_uvPin", ".outputMatrix[0]"), (o, ".offsetParentMatrix"))
      ∈ (make_uv_pin o s u v ls nz na ta rt sc).2.conns := by
  obtain ⟨pr, so', aw, ao, scB, kn, kt, hn, ht, heq, hfreshB, hsomeB, hpresB⟩ :=
    run_ok o s u v ls nz na ta rt sc hwf hok
  have hfB := hfreshB hfresh
  refine ⟨by rw [heq], ?_, ?_⟩
  · rw [heq]
    dsimp only
    rw [getAttrVal_pin_pinScene o u v ls nz kn kt pr so' aw ao scB _ hfB]
    exact (finalPinNode_attrs o u v ls nz kn kt).2.2.1
  · rw [heq]
    dsimp only
    rw [conns_pinScene]
    simp

/-- Witness for C7 at a concrete scene and coordinates. -/
theorem claim7_witness :
    (make_uv_pin "cube1" "plane1" (1/4) (3/4) false false none none true
      sampleScene2).1 = .ok ("cube1" ++ "_uvPin") ∧
    (make_uv_pin "cube1" "plane1" (1/4) (3/4) false false none none true
      sampleScene2).2.getAttrVal ("cube1" ++ "_uvPin", ".coordinate[0]")
      = some (.float2 (1/4) (3/4)) := by
  have h := claim7_coordinate_output_return "cube1" "plane1" (1/4) (3/4) false false
    none none true sampleScene2 (by decide) (by decide) (by decide)
  exact ⟨h.1, h.2.1⟩

/-- A successful pin phase resolves both axis enums and ends in `pinScene`. -/
theorem pinPhase_ok_of_resIsOk (o : String) (u v : Rat) (ls nz : Bool)
    (na ta : Option String) (pr so aw ao : String) (sc : Scene)
    (hok : resIsOk (pinPhase o u v ls nz na ta pr so aw ao sc) = true) :
    ∃ kn kt, normalEnumOf na = some kn ∧ tangentEnumOf ta = some kt ∧
      pinPhase o u v ls nz na ta pr so aw ao sc
        = (.ok (o ++ "_uvPin"), pinScene o u v ls nz kn kt pr so aw ao sc) := by
  cases hn : normalEnumOf na with
  | none =>
    rw [pinPhase_errN o u v ls nz na ta pr so aw ao sc hn] at hok
    simp [resIsOk] at hok
  | some kn =>
    cases ht : tangentEnumOf ta with
    | none =>
      rw [pinPhase_errT o u v ls nz na ta pr so aw ao sc kn hn ht] at hok
      simp [resIsOk] at hok
    | some kt =>
      exact ⟨kn, kt, rfl, rfl, pinPhase_ok o u v ls nz na ta pr so aw ao sc kn kt hn ht⟩

/-- Claim C9: when every shape child of the surface is flagged intermediate,
the first shape child serves simultaneously as the primary (active) shape
and as the reference shape: no duplicate is synthesized (the only new node
is the pin itself) and the pin's deformedGeometry and originalGeometry
inputs are both fed from that same first shape child. -/
theorem claim9_all_intermediate (o s : String) (u v : Rat) (ls nz : Bool)
    (na ta : Option String) (rt : Bool) (sc : Scene)
    (hwf : sc.wf)
    (hne : sc.listRelativesShapes s ≠ [])
    (hall : ∀ x ∈ sc.listRelativesShapes s,
      sc.getAttrTruthy (x, ".intermediateObject") = true)
    (hok : resIsOk (make_uv_pin o s u v ls nz na ta rt sc) = true) :
    primaryShapeOf sc s = (sc.listRelativesShapes s).headD "" ∧
    shapeOriginOf sc s = some ((sc.listRelativesShapes s).headD "") ∧
    (make_uv_pin o s u v ls nz na ta rt sc).2.nodes.map Node.skel
      = sc.nodes.map Node.skel ++ [(o ++ "_uvPin", "uvPin", none, false)] ∧
    (∀ ai aw ao, attrNamesFor (sc.objectType (primaryShapeOf sc s)) = some (ai, aw, ao) →
      (((sc.listRelativesShapes s).headD "", aw), (o ++ "_uvPin", ".deformedGeometry"))
        ∈ (make_uv_pin o s u v ls nz na ta rt sc).2.conns ∧
      (((sc.listRelativesShapes s).headD "", ao), (o ++ "_uvPin", ".originalGeometry"))
        ∈ (make_uv_pin o s u v ls nz na ta rt sc).2.conns) := by
  have hprim : primaryShapeOf sc s = (sc.listRelativesShapes s).headD "" := by
    unfold primaryShapeOf
    dsimp only
    have hf : (sc.listRelativesShapes s).find?
        (fun x => ! sc.getAttrTruthy (x, ".intermediateObject")) = none := by
      rw [List.find?_eq_none]
      intro x hx
      simp [hall x hx]
    rw [hf]
    rfl
  have horig : shapeOriginOf sc s = some ((sc.listRelativesShapes s).headD "") := by
    unfold shapeOriginOf
    cases hc : sc.listRelativesShapes s with
    | nil => exact absurd hc hne
    | cons a t =>
      have ha := hall a (by rw [hc]; exact List.mem_cons_self a t)
      rw [List.find?_cons_of_pos _ (by simpa using ha)]
      simp
  have hneErr := resIsSceneErr_of_ok _ hok
  rcases run_shape o s u v ls nz na ta rt sc hwf hneErr with
    ⟨so', ai0, aw0, ao0, h1, hA0, hO0, heq⟩ |
    ⟨nd, ai0, aw0, ao0, h1, hA0, hO0, hfind, hshape, hpar, heq⟩
  · have hso : so' = (sc.listRelativesShapes s).headD "" := by
      rw [horig] at hO0
      exact (Option.some_inj.mp hO0).symm
    rw [heq] at hok
    obtain ⟨kn, kt, hn, ht, hPeq⟩ := pinPhase_ok_of_resIsOk o u v ls nz na ta
      (primaryShapeOf sc s) so' aw0 ao0 sc hok
    rw [hPeq] at heq
    refine ⟨hprim, horig, ?_, ?_⟩
    · rw [heq]
      dsimp only
      exact skel_map_pinScene o u v ls nz kn kt (primaryShapeOf sc s) so' aw0 ao0 sc
    · intro ai aw ao hA
      rw [hA0] at hA
      have haw : aw = aw0 := by
        have := Option.some_inj.mp hA
        exact (congrArg (fun t => t.2.1) this).symm
      have hao : ao = ao0 := by
        have := Option.some_inj.mp hA
        exact (congrArg (fun t => t.2.2) this).symm
      rw [heq]
      dsimp only
      rw [conns_pinScene, haw, hao, hprim, hso]
      constructor
      · simp
      · simp
  · rw [horig] at hO0
    cases hO0

/-- Witness for C9 on a scene whose only shape child is intermediate. -/
theorem claim9_witness :
    primaryShapeOf sampleScene3 "plane1"
      = (sampleScene3.listRelativesShapes "plane1").headD "" ∧
    shapeOriginOf sampleScene3 "plane1"
      = some ((sampleScene3.listRelativesShapes "plane1").headD "") ∧
    (make_uv_pin "cube1" "plane1" 0 0 false false none none true
      sampleScene3).2.nodes.map Node.skel
      = sampleScene3.nodes.map Node.skel ++ [("cube1" ++ "_uvPin", "uvPin", none, false)] := by
  have h := claim9_all_intermediate "cube1" "plane1" 0 0 false false none none true
    sampleScene3 (by decide) (by decide) (by decide) (by decide)
  exact ⟨h.1, h.2.1, h.2.2.1⟩

/-! Tracking the intermediate shape children of the surface. -/

theorem isIntermediate_setAttrVal_ne (nd : Node) (a : String) (v : AttrVal)
    (h : a ≠ ".intermediateObject") :
    (nd.setAttrVal a v).isIntermediate = nd.isIntermediate := by
  unfold Node.isIntermediate
  rw [attrVal_setAttrVal_ne nd a ".intermediateObject" v (fun he => h he.symm)]

theorem interm_setAttr (sc : Scene) (p : Plug) (v : AttrVal) (srf : String)
    (h : p.2 ≠ ".intermediateObject") :
    intermediateShapesOf (sc.setAttr p v) srf = intermediateShapesOf sc srf := by
  unfold intermediateShapesOf Scene.setAttr
  dsimp only
  rw [List.filter_map, List.map_map]
  have hp : ∀ a ∈ sc.nodes,
      ((fun x => x.parent == some srf && x.isShape && x.isIntermediate) ∘
        (fun nd => if nd.name == p.1 then nd.setAttrVal p.2 v else nd)) a
      = (fun x => x.parent == some srf && x.isShape && x.isIntermediate) a := by
    intro a _
    by_cases hc : a.name == p.1
    · simp only [Function.comp, hc, if_true]
      have h1 : (a.setAttrVal p.2 v).parent = a.parent := rfl
      have h2 : (a.setAttrVal p.2 v).isShape = a.isShape := rfl
      rw [h1, h2, isIntermediate_setAttrVal_ne a p.2 v h]
    · simp [Function.comp, hc]
  rw [List.filter_congr hp]
  apply List.map_congr_left
  intro a _
  by_cases hc : a.name == p.1 <;> simp [Function.comp, hc, name_setAttrVal]

theorem interm_congr_nodes (sc1 sc2 : Scene) (srf : String) (h : sc1.nodes = sc2.nodes) :
    intermediateShapesOf sc1 srf = intermediateShapesOf sc2 srf := by
  unfold intermediateShapesOf
  rw [h]

theorem interm_connectAttr (sc : Scene) (a b : Plug) (f : Bool) (srf : String) :
    intermediateShapesOf (sc.connectAttr a b f) srf = intermediateShapesOf sc srf := rfl

theorem interm_createNode (sc : Scene) (t n srf : String) :
    intermediateShapesOf (sc.createNode t n) srf = intermediateShapesOf sc srf := by
  unfold intermediateShapesOf Scene.createNode
  dsimp only
  rw [List.filter_append]
  simp

theorem interm_xform (sc : Scene) (n : String) (tx ty tz rx ry rz : Rat) (srf : String) :
    intermediateShapesOf (sc.xform n tx ty tz rx ry rz) srf
      = intermediateShapesOf sc srf := by
  unfold Scene.xform
  rw [interm_setAttr _ (n, ".rotate") _ _ (show (".rotate" : String) ≠ ".intermediateObject" by decide),
    interm_setAttr _ (n, ".translate") _ _ (show (".translate" : String) ≠ ".intermediateObject" by decide)]

theorem interm_pinErrScene (o pr so aw ao : String) (sc : Scene) (srf : String) :
    intermediateShapesOf (pinErrScene o pr so aw ao sc) srf
      = intermediateShapesOf sc srf := by
  unfold pinErrScene
  rw [interm_xform, interm_connectAttr, interm_connectAttr, interm_createNode]

theorem interm_pinScene (o : String) (u v : Rat) (ls nz : Bool) (kn kt : Int)
    (pr so aw ao : String) (sc : Scene) (srf : String) :
    intermediateShapesOf (pinScene o u v ls nz kn kt pr so aw ao sc) srf
      = intermediateShapesOf sc srf := by
  rw [pinScene_eq]
  unfold pinTailScene
  dsimp only
  have hcore : ∀ y : Scene,
      intermediateShapesOf
        (((((y.setAttr (o ++ "_uvPin", ".normalAxis") (.int kn)).setAttr
          (o ++ "_uvPin", ".tangentAxis") (.int kt)).setAttr
          (o ++ "_uvPin", ".normalizedIsoParms") (.int 0)).setAttr
          (o ++ "_uvPin", ".coordinate[0]") (.float2 u v)).connectAttr
          (o ++ "_uvPin", ".outputMatrix[0]") (o, ".offsetParentMatrix") false) srf
      = intermediateShapesOf y srf := by
    intro y
    rw [interm_connectAttr,
      interm_setAttr _ (o ++ "_uvPin", ".coordinate[0]") _ _ (show (".coordinate[0]" : String) ≠ ".intermediateObject" by decide),
      interm_setAttr _ (o ++ "_uvPin", ".normalizedIsoParms") _ _ (show (".normalizedIsoParms" : String) ≠ ".intermediateObject" by decide),
      interm_setAttr _ (o ++ "_uvPin", ".tangentAxis") _ _ (show (".tangentAxis" : String) ≠ ".intermediateObject" by decide),
      interm_setAttr _ (o ++ "_uvPin", ".normalAxis") _ _ (show (".normalAxis" : String) ≠ ".intermediateObject" by decide)]
  by_cases hls : ls
  · rw [if_pos hls, interm_setAttr _ (o ++ "_uvPin", ".relativeSpaceMode") _ _ (show (".relativeSpaceMode" : String) ≠ ".intermediateObject" by decide)]
    by_cases hnz : nz
    · rw [if_pos hnz, interm_setAttr _ (o ++ "_uvPin", ".normalizedIsoParms") _ _ (show (".normalizedIsoParms" : String) ≠ ".intermediateObject" by decide),
        hcore, interm_pinErrScene]
    · rw [if_neg hnz, hcore, interm_pinErrScene]
  · rw [if_neg hls, interm_setAttr _ (o, ".inheritsTransform") _ _ (show (".inheritsTransform" : String) ≠ ".intermediateObject" by decide)]
    by_cases hnz : nz
    · rw [if_pos hnz, interm_setAttr _ (o ++ "_uvPin", ".normalizedIsoParms") _ _ (show (".normalizedIsoParms" : String) ≠ ".intermediateObject" by decide),
        hcore, interm_pinErrScene]
    · rw [if_neg hnz, hcore, interm_pinErrScene]

theorem getAttrTruthy_eq_isIntermediate (sc : Scene) (x : Node)
    (hfind : sc.findNode x.name = some x) :
    sc.getAttrTruthy (x.name, ".intermediateObject") = x.isIntermediate := by
  unfold Scene.getAttrTruthy Scene.getAttrVal Node.isIntermediate
  rw [hfind]
  rfl

theorem name_mem_shapes (sc : Scene) (s : String) (x : Node) (hx : x ∈ sc.nodes)
    (hp : x.parent = some s) (hs : x.isShape = true) :
    x.name ∈ sc.listRelativesShapes s := by
  unfold Scene.listRelativesShapes
  apply List.mem_map_of_mem
  rw [List.mem_filter]
  exact ⟨hx, by simp [hp, hs]⟩

/-- With no pre-existing intermediate child and a fresh `"Orig"` name, the
synthesized scene has exactly one intermediate shape child of the surface:
the new `"Orig"` shape. -/
theorem interm_synthScene (s pr ai aw : String) (nd : Node) (sc : Scene)
    (hwf : sc.wf) (hO : shapeOriginOf sc s = none) (hshape : nd.isShape = true)
    (hOrigFresh : ∀ x ∈ sc.nodes, x.name ≠ pr ++ "Orig") :
    intermediateShapesOf (synthScene s pr ai aw nd sc) s = [pr ++ "Orig"] := by
  rw [interm_congr_nodes _ ((Scene.mk (sc.nodes ++ [origSNode pr s nd]) sc.conns).setAttr
      (pr ++ "Orig", ".intermediateObject") (.int 1)) s (nodes_synthScene s pr ai aw nd sc)]
  unfold intermediateShapesOf Scene.setAttr
  dsimp only
  rw [List.map_append]
  have hid : ∀ x ∈ sc.nodes,
      (if x.name == pr ++ "Orig"
        then x.setAttrVal ".intermediateObject" (.int 1) else x) = x := by
    intro x hx
    simp [hOrigFresh x hx]
  rw [List.map_congr_left hid, List.map_id']
  have horig : (origSNode pr s nd).name == pr ++ "Orig" := by
    simp [origSNode]
  rw [List.filter_append]
  have hleft : sc.nodes.filter
      (fun x => x.parent == some s && x.isShape && x.isIntermediate) = [] := by
    rw [List.filter_eq_nil_iff]
    intro x hx
    by_cases hp : x.parent = some s
    · by_cases hsh : x.isShape = true
      · have hmem := name_mem_shapes sc s x hx hp hsh
        have hfind : sc.findNode x.name = some x :=
          find?_name_of_mem_nodup sc.nodes x hwf.1 hx
        have hfalse : sc.getAttrTruthy (x.name, ".intermediateObject") = false := by
          unfold shapeOriginOf at hO
          rw [List.find?_eq_none] at hO
          simpa using hO x.name hmem
        rw [getAttrTruthy_eq_isIntermediate sc x hfind] at hfalse
        simp [hfalse]
      · simp at hsh
        simp [hsh]
    · simp [hp]
  rw [hleft]
  simp only [List.map_cons, List.map_nil, List.nil_append]
  rw [List.filter_cons_of_pos]
  · simp [horig, Node.setAttrVal, origSNode, Node.isIntermediate, Node.attrVal,
      List.find?_cons]
  · simp only [horig, if_true]
    have h1 : ((origSNode pr s nd).setAttrVal ".intermediateObject" (.int 1)).parent
        = some s := rfl
    have h2 : ((origSNode pr s nd).setAttrVal ".intermediateObject" (.int 1)).isShape
        = nd.isShape := rfl
    have h3 : ((origSNode pr s nd).setAttrVal ".intermediateObject" (.int 1)).isIntermediate
        = true := by
      unfold Node.isIntermediate
      rw [attrVal_setAttrVal_same]
      rfl
    simp [h1, h2, h3, hshape]

theorem conns_synthScene (s pr ai aw : String) (nd : Node) (sc : Scene) :
    (synthScene s pr ai aw nd sc).conns
      = ((pr ++ "Orig", aw), (pr, ai)) ::
        ((if (sc.listConnectionsDst (pr, ai)).isEmpty then sc.conns
          else ((sc.listConnectionsDst (pr, ai)).getD 1 ("", ""), (pr ++ "Orig", ai))
            :: sc.conns).filter (fun c => c.2 != (pr, ai))) := by
  unfold synthScene
  dsimp only
  have hB : (Scene.mk (sc.nodes ++ [origSNode pr s nd]) sc.conns).listConnectionsDst (pr, ai)
      = sc.listConnectionsDst (pr, ai) := rfl
  rw [hB]
  by_cases hc : (sc.listConnectionsDst (pr, ai)).isEmpty
  · rw [if_pos hc, if_pos hc]
    rfl
  · rw [if_neg hc, if_neg hc]
    rfl

theorem skel_mem_pinScene (o : String) (u v : Rat) (ls nz : Bool) (kn kt : Int)
    (pr so aw ao : String) (sc : Scene) (x : Node) (hx : x ∈ sc.nodes) :
    ∃ x' ∈ (pinScene o u v ls nz kn kt pr so aw ao sc).nodes, x'.skel = x.skel := by
  have h1 : x.skel ∈ (pinScene o u v ls nz kn kt pr so aw ao sc).nodes.map Node.skel := by
    rw [skel_map_pinScene]
    exact List.mem_append_left _ (List.mem_map_of_mem _ hx)
  obtain ⟨x', hx', he⟩ := List.mem_map.mp h1
  exact ⟨x', hx', he⟩

theorem orig_skel_mem_synthScene (s pr ai aw : String) (nd : Node) (sc : Scene) :
    ∃ x ∈ (synthScene s pr ai aw nd sc).nodes,
      x.skel = (pr ++ "Orig", nd.typ, some s, nd.isShape) := by
  refine ⟨(origSNode pr s nd).setAttrVal ".intermediateObject" (.int 1), ?_, rfl⟩
  rw [nodes_synthScene]
  unfold Scene.setAttr
  dsimp only
  have hg : (origSNode pr s nd).setAttrVal ".intermediateObject" (.int 1)
      = (fun ndx => if ndx.name == pr ++ "Orig"
          then ndx.setAttrVal ".intermediateObject" (.int 1) else ndx)
          (origSNode pr s nd) := by
    simp [origSNode]
  rw [hg]
  exact List.mem_map_of_mem _
    (List.mem_append_right _ (List.mem_singleton.mpr rfl))

/-- Claim C5: on success, when no intermediate shape child exists the run
creates exactly one (named with the `"Orig"` suffix, a copy of the primary
shape's skeleton re-parented under the surface, flagged intermediate) and
force-connects its world output into the active shape's input; when an
intermediate child already exists the node skeleton gains only the pin node
(no duplication, renaming, or re-parenting) and the intermediate shape
children are unchanged. -/
theorem claim5_intermediate_synthesis (o s : String) (u v : Rat) (ls nz : Bool)
    (na ta : Option String) (rt : Bool) (sc : Scene)
    (hwf : sc.wf) (hok : resIsOk (make_uv_pin o s u v ls nz na ta rt sc) = true) :
    (shapeOriginOf sc s = none →
      (∀ x ∈ sc.nodes, x.name ≠ primaryShapeOf sc s ++ "Orig") →
      intermediateShapesOf (make_uv_pin o s u v ls nz na ta rt sc).2 s
        = [primaryShapeOf sc s ++ "Orig"] ∧
      (∀ ai aw ao, attrNamesFor (sc.objectType (primaryShapeOf sc s)) = some (ai, aw, ao) →
        ((primaryShapeOf sc s ++ "Orig", aw), (primaryShapeOf sc s, ai))
          ∈ (make_uv_pin o s u v ls nz na ta rt sc).2.conns) ∧
      (∃ x ∈ (make_uv_pin o s u v ls nz na ta rt sc).2.nodes,
        x.skel = (primaryShapeOf sc s ++ "Orig",
          sc.objectType (primaryShapeOf sc s), some s, true))) ∧
    (∀ so, shapeOriginOf sc s = some so →
      (make_uv_pin o s u v ls nz na ta rt sc).2.nodes.map Node.skel
        = sc.nodes.map Node.skel ++ [(o ++ "_uvPin", "uvPin", none, false)] ∧
      intermediateShapesOf (make_uv_pin o s u v ls nz na ta rt sc).2 s
        = intermediateShapesOf sc s) := by
  have hneErr := resIsSceneErr_of_ok _ hok
  rcases run_shape o s u v ls nz na ta rt sc hwf hneErr with
    ⟨so', ai0, aw0, ao0, h1, hA0, hO0, heq⟩ |
    ⟨nd, ai0, aw0, ao0, h1, hA0, hO0, hfind, hshape, hpar, heq⟩
  · rw [heq] at hok
    obtain ⟨kn, kt, hn, ht, hPeq⟩ := pinPhase_ok_of_resIsOk o u v ls nz na ta
      (primaryShapeOf sc s) so' aw0 ao0 sc hok
    rw [hPeq] at heq
    constructor
    · intro hO _
      rw [hO0] at hO
      cases hO
    · intro so _
      rw [heq]
      dsimp only
      exact ⟨skel_map_pinScene o u v ls nz kn kt (primaryShapeOf sc s) so' aw0 ao0 sc,
        interm_pinScene o u v ls nz kn kt (primaryShapeOf sc s) so' aw0 ao0 sc s⟩
  · rw [heq] at hok
    obtain ⟨kn, kt, hn, ht, hPeq⟩ := pinPhase_ok_of_resIsOk o u v ls nz na ta
      (primaryShapeOf sc s) (primaryShapeOf sc s ++ "Orig") aw0 ao0
      (synthScene s (primaryShapeOf sc s) ai0 aw0 nd sc) hok
    rw [hPeq] at heq
    constructor
    · intro hO hOrigFresh
      refine ⟨?_, ?_, ?_⟩
      · rw [heq]
        dsimp only
        rw [interm_pinScene]
        exact interm_synthScene s (primaryShapeOf sc s) ai0 aw0 nd sc hwf hO0 hshape
          hOrigFresh
      · intro ai aw ao hA
        rw [hA0] at hA
        have hai : ai = ai0 :=
          (congrArg (fun t => t.1) (Option.some_inj.mp hA)).symm
        have haw : aw = aw0 :=
          (congrArg (fun t => t.2.1) (Option.some_inj.mp hA)).symm
        rw [heq]
        dsimp only
        rw [conns_pinScene, conns_synthScene, hai, haw]
        simp
      · rw [heq]
        dsimp only
        obtain ⟨x, hx, hskel⟩ :=
          orig_skel_mem_synthScene s (primaryShapeOf sc s) ai0 aw0 nd sc
        obtain ⟨x', hx', he'⟩ := skel_mem_pinScene o u v ls nz kn kt
          (primaryShapeOf sc s) (primaryShapeOf sc s ++ "Orig") aw0 ao0 _ x hx
        refine ⟨x', hx', ?_⟩
        rw [he', hskel]
        have hty : sc.objectType (primaryShapeOf sc s) = nd.typ := by
          unfold Scene.objectType
          rw [hfind]
        rw [hty, hshape]
    · intro so hOs
      rw [hO0] at hOs
      cases hOs

/-- Witness for C5 on both branches. -/
theorem claim5_witness :
    intermediateShapesOf (make_uv_pin "cube1" "plane1" 0 0 false false none none true
      sampleScene).2 "plane1" = [primaryShapeOf sampleScene "plane1" ++ "Orig"] ∧
    intermediateShapesOf (make_uv_pin "cube1" "plane1" 0 0 false false none none true
      sampleScene2).2 "plane1" = intermediateShapesOf sampleScene2 "plane1" := by
  constructor
  · exact ((claim5_intermediate_synthesis "cube1" "plane1" 0 0 false false none none true
      sampleScene (by decide) (by decide)).1 (by decide) (by decide)).1
  · exact ((claim5_intermediate_synthesis "cube1" "plane1" 0 0 false false none none true
      sampleScene2 (by decide) (by decide)).2 "planeShape1Orig" (by decide)).2

theorem find?_eq_head?_filter {α : Type} (p : α → Bool) (l : List α) :
    l.find? p = (l.filter p).head? := by
  induction l with
  | nil => rfl
  | cons a t ih =>
    by_cases h : p a
    · rw [List.find?_cons_of_pos _ h, List.filter_cons_of_pos h]
      rfl
    · rw [List.find?_cons_of_neg _ h, List.filter_cons_of_neg h, ih]

/-- When the primary input plug has an incoming connection, the host query
returns a nonempty pair list whose second entry is the upstream source. -/
theorem listConnectionsDst_of_find (sc : Scene) (p : Plug) (c0 : Plug × Plug)
    (hc0 : sc.conns.find? (fun c => c.2 == p) = some c0) :
    (sc.listConnectionsDst p).isEmpty = false ∧
    (sc.listConnectionsDst p).getD 1 ("", "") = c0.1 := by
  unfold Scene.listConnectionsDst
  rw [find?_eq_head?_filter] at hc0
  cases hf : sc.conns.filter (fun c => c.2 == p) with
  | nil =>
    rw [hf] at hc0
    cases hc0
  | cons a t =>
    rw [hf] at hc0
    have ha : a = c0 := by simpa using hc0
    constructor
    · rfl
    · rw [ha]
      rfl

theorem attrNamesFor_ai (t ai aw ao : String) (h : attrNamesFor t = some (ai, aw, ao)) :
    ai = ".inMesh" ∨ ai = ".create" := by
  unfold attrNamesFor at h
  split_ifs at h
  · exact Or.inl (congrArg (fun z => z.1) (Option.some_inj.mp h)).symm
  · exact Or.inr (congrArg (fun z => z.1) (Option.some_inj.mp h)).symm

/-- Claim C8: when the intermediate shape is synthesized and the active
shape's input had an upstream connection, the upstream source is rerouted
into the new reference shape's input, the reference shape's world output is
force-connected into the active shape's input, and the previous connection
into the active shape's input is gone. -/
theorem claim8_reroute_upstream (o s : String) (u v : Rat) (ls nz : Bool)
    (na ta : Option String) (rt : Bool) (sc : Scene) (ai aw ao : String)
    (c0 : Plug × Plug)
    (hwf : sc.wf) (hok : resIsOk (make_uv_pin o s u v ls nz na ta rt sc) = true)
    (hO : shapeOriginOf sc s = none)
    (hfr : sc.freshFor (primaryShapeOf sc s ++ "Orig"))
    (hA : attrNamesFor (sc.objectType (primaryShapeOf sc s)) = some (ai, aw, ao))
    (hc0 : sc.conns.find? (fun c => c.2 == (primaryShapeOf sc s, ai)) = some c0) :
    (c0.1, (primaryShapeOf sc s ++ "Orig", ai))
      ∈ (make_uv_pin o s u v ls nz na ta rt sc).2.conns ∧
    ((primaryShapeOf sc s ++ "Orig", aw), (primaryShapeOf sc s, ai))
      ∈ (make_uv_pin o s u v ls nz na ta rt sc).2.conns ∧
    (c0.1, (primaryShapeOf sc s, ai))
      ∉ (make_uv_pin o s u v ls nz na ta rt sc).2.conns := by
  have hneErr := resIsSceneErr_of_ok _ hok
  rcases run_shape o s u v ls nz na ta rt sc hwf hneErr with
    ⟨so', ai0, aw0, ao0, h1, hA0, hO0, heq⟩ |
    ⟨nd, ai0, aw0, ao0, h1, hA0, hO0, hfind, hshape, hpar, heq⟩
  · rw [hO0] at hO
    cases hO
  · rw [hA0] at hA
    have htr := Option.some_inj.mp hA
    have hai : ai0 = ai := congrArg (fun z => z.1) htr
    have haw : aw0 = aw := congrArg (fun z => z.2.1) htr
    rw [← hai] at hc0
    rw [← hai, ← haw]
    rw [heq] at hok
    obtain ⟨kn, kt, hn, ht, hPeq⟩ :=
      pinPhase_ok_of_resIsOk o u v ls nz na ta _ _ _ _ _ hok
    rw [hPeq] at heq
    rw [heq]
    dsimp only
    rw [conns_pinScene, conns_synthScene]
    obtain ⟨hie, hgd⟩ := listConnectionsDst_of_find sc (primaryShapeOf sc s, ai0) c0 hc0
    rw [hie]
    simp only [Bool.false_eq_true, if_false]
    rw [hgd]
    have hc0mem := List.mem_of_find?_eq_some hc0
    have haiCase : ai0 = ".inMesh" ∨ ai0 = ".create" :=
      attrNamesFor_ai _ _ _ _ hA0
    have hOrigNePr : primaryShapeOf sc s ++ "Orig" ≠ primaryShapeOf sc s :=
      append_ne_self (by decide) _
    refine ⟨?_, ?_, ?_⟩
    · apply List.mem_cons_of_mem
      apply List.mem_cons_of_mem
      apply List.mem_cons_of_mem
      apply List.mem_cons_of_mem
      rw [List.mem_filter]
      refine ⟨List.mem_cons_self _ _, ?_⟩
      simp only [bne_iff_ne, ne_eq]
      intro hco
      exact hOrigNePr (congrArg Prod.fst hco)
    · apply List.mem_cons_of_mem
      apply List.mem_cons_of_mem
      apply List.mem_cons_of_mem
      exact List.mem_cons_self _ _
    · intro hmem
      rcases List.mem_cons.mp hmem with h | hmem
      · have hattr : ai0 = ".offsetParentMatrix" := congrArg (fun z => z.2.2) h
        rcases haiCase with h' | h' <;> rw [h'] at hattr <;> exact absurd hattr (by decide)
      rcases List.mem_cons.mp hmem with h | hmem
      · have hattr : ai0 = ".originalGeometry" := congrArg (fun z => z.2.2) h
        rcases haiCase with h' | h' <;> rw [h'] at hattr <;> exact absurd hattr (by decide)
      rcases List.mem_cons.mp hmem with h | hmem
      · have hattr : ai0 = ".deformedGeometry" := congrArg (fun z => z.2.2) h
        rcases haiCase with h' | h' <;> rw [h'] at hattr <;> exact absurd hattr (by decide)
      rcases List.mem_cons.mp hmem with h | hmem
      · have hfst : c0.1.1 = primaryShapeOf sc s ++ "Orig" :=
          congrArg (fun z => z.1.1) h
        exact (hfr.2 c0 hc0mem).1 hfst
      · rw [List.mem_filter] at hmem
        have := hmem.2
        simp at this

/-- Witness for C8 at a concrete scene with a pre-existing input connection. -/
theorem claim8_witness :
    ((("deformer1", ".outputGeometry[0]") : Plug),
      ((primaryShapeOf sampleSceneConn "plane1" ++ "Orig", ".inMesh") : Plug))
      ∈ (make_uv_pin "cube1" "plane1" 0 0 false false none none true
          sampleSceneConn).2.conns ∧
    ((("deformer1", ".outputGeometry[0]") : Plug),
      ((primaryShapeOf sampleSceneConn "plane1", ".inMesh") : Plug))
      ∉ (make_uv_pin "cube1" "plane1" 0 0 false false none none true
          sampleSceneConn).2.conns := by
  have h := claim8_reroute_upstream "cube1" "plane1" 0 0 false false none none true
    sampleSceneConn ".inMesh" ".worldMesh[0]" ".outMesh"
    ((("deformer1", ".outputGeometry[0]") : Plug), (("planeShape1", ".inMesh") : Plug))
    (by decide) (by decide) (by decide) (by decide) (by decide) (by decide)
  exact ⟨h.1, h.2.2⟩

end UvPin
